import Mathlib

/-!
# ContactSensorManager (examples/contact-sensor-app/nxp/k32w/k32w0/main)

A shallow embedding of `ContactSensorManager.cpp` and theorems about it.

Modelling conventions.

* The manager is a process-wide singleton (`sContactSensor`) next to the global
  timer handle `sContactSensorTimer`.  Both live in `World`, which every
  function that touches them receives and returns.
* The FreeRTOS timer service, the logger and the application task are not part
  of the program.  Every command the program sends to them is appended to
  `World.trace` in program order; every answer they give is an argument of the
  embedded function (`TimerService`), so a theorem quantified over the answers
  holds whatever the collaborators do.
* A callback is a nullable function pointer.  Calling it is recorded in the
  trace together with the manager object as it is at the moment of the call,
  which is what the callee would read through `IsActionInProgress()` or
  `IsUnlocked()`.
* `ContactSensorManager.h`, `AppEvent.h`, `app_config.h` and the FreeRTOS
  headers are not among the sources; the enumerators used by the code are
  declared here and the two numeric macros are fields of `Config`.
* `TimedWorld` puts a model of a well-behaved one-shot timer next to the
  program: it supplies the answers of the timer service from the state of the
  timer and derives that state from the commands the program sends.
-/

namespace ContactSensor

/-- Enumeration `ContactSensorManager::State_t`, with the four enumerators the code uses. -/
inductive State_t where
  | kState_LockingInitiated
  | kState_LockingCompleted
  | kState_UnlockingInitiated
  | kState_UnlockingCompleted
  deriving DecidableEq, Repr

/-- Enumeration `ContactSensorManager::Action_t`. -/
inductive Action_t where
  | LOCK_ACTION
  | UNLOCK_ACTION
  | INVALID_ACTION
  deriving DecidableEq, Repr

/-- FreeRTOS status returned by the timer commands. -/
inductive BaseType_t where
  | pdPASS
  | pdFAIL
  deriving DecidableEq, Repr

/-- Nullable pointer to a function `void (Action_t, int32_t)`: `none` is the null pointer,
`some a` the function at address `a`. -/
abbrev Callback_fn_initiated := Option Nat

/-- Nullable pointer to a function `void (Action_t)`. -/
abbrev Callback_fn_completed := Option Nat

/-- FreeRTOS timer handle: `none` is `NULL`. -/
abbrev TimerHandle_t := Option Nat

/-- The data members of `ContactSensorManager` that the code reads or writes. -/
structure ContactSensorManager where
  mState : State_t
  mActionInitiated_CB : Callback_fn_initiated
  mActionCompleted_CB : Callback_fn_completed
  deriving DecidableEq, Repr

/-- The four messages passed to `K32W_LOG`. -/
inductive LogLine where
  /-- Text "contact sensor timer create failed". -/
  | timer_create_failed
  /-- Text "lock timer already started!". -/
  | timer_already_started
  /-- Text "lock timer start() failed". -/
  | timer_start_failed
  /-- Text "contact sensor timer stop() failed". -/
  | timer_stop_failed
  deriving DecidableEq, Repr

/-- Function pointer stored in `AppEvent::Handler`. -/
inductive EventHandler_t where
  | ActuatorMovementTimerEventHandler
  | function_at (address : Nat)
  deriving DecidableEq, Repr

/-- Tag stored in `AppEvent::Type`; the code uses `kEventType_Timer` only. -/
inductive AppEventTypes where
  | kEventType_Timer
  | kEventType_Other (tag : Nat)
  deriving DecidableEq, Repr

/-- The fields of `AppEvent` that `TimerEventHandler` assigns.  `Context` is a `void *`,
kept as an address. -/
structure AppEvent where
  Type_ : AppEventTypes
  Context : Nat
  Handler : EventHandler_t
  deriving DecidableEq, Repr

/-- What the program does to its collaborators, in program order. -/
inductive Effect where
  /-- Call `K32W_LOG(line)`. -/
  | K32W_LOG (line : LogLine)
  /-- Call `xTimerCreate(name, period, autoReload, id, TimerEventHandler)`; the name is not kept. -/
  | xTimerCreate (xTimerPeriod : Nat) (uxAutoReload : Bool) (pvTimerID : Nat)
  /-- Call `xTimerStop(xTimer, xTicksToWait)`. -/
  | xTimerStop (xTimer : TimerHandle_t) (xTicksToWait : Nat)
  /-- Call `xTimerChangePeriod(xTimer, xNewPeriod, xTicksToWait)`. -/
  | xTimerChangePeriod (xTimer : TimerHandle_t) (xNewPeriod : Nat) (xTicksToWait : Nat)
  /-- Call of the initiated callback `fn(aAction, aActor)`; `seen` is the manager at that moment. -/
  | ActionInitiated_CB (fn : Nat) (aAction : Action_t) (aActor : Int) (seen : ContactSensorManager)
  /-- Call of the completed callback `fn(aAction)`; `seen` is the manager at that moment. -/
  | ActionCompleted_CB (fn : Nat) (aAction : Action_t) (seen : ContactSensorManager)
  /-- Call `GetAppTask().PostEvent(&event)`. -/
  | PostEvent (event : AppEvent)
  deriving DecidableEq, Repr

/-- The program state: the singleton, the global timer handle, and the effects so far. -/
structure World where
  sContactSensor : ContactSensorManager
  sContactSensorTimer : TimerHandle_t
  trace : List Effect
  deriving DecidableEq, Repr

/-- The two macros of `app_config.h` and `FreeRTOSConfig.h` that the code uses. -/
structure Config where
  ACTUATOR_MOVEMENT_PERIOS_MS : Nat
  portTICK_PERIOD_MS : Nat
  deriving DecidableEq, Repr

/-- The answers of the FreeRTOS timer service to the calls one `StartTimer` makes. -/
structure TimerService where
  xTimerIsTimerActive : Bool
  xTimerStop : BaseType_t
  xTimerChangePeriod : BaseType_t
  deriving DecidableEq, Repr

/-- Append one effect to the trace. -/
def World.emit (w : World) (e : Effect) : World :=
  { w with trace := w.trace ++ [e] }

/-- Assignment `mState = s` on the singleton. -/
def World.set_mState (w : World) (s : State_t) : World :=
  { w with sContactSensor := { w.sContactSensor with mState := s } }

/-- Outcome of `Init`: `returned err w` is a normal return, `assert_failed w` is the
`assert(0)` of line 47 reached in world `w`. -/
inductive InitResult where
  | returned (err : Int) (w : World)
  | assert_failed (w : World)
  deriving DecidableEq, Repr

/-- Function `ContactSensorManager::Init` for the object at address `this`.
`created` is what `xTimerCreate` returns. -/
def Init (this : Nat) (created : TimerHandle_t) (w : World) : InitResult :=
  let err : Int := 0
  let w := w.emit (Effect.xTimerCreate 1 false this)
  let w := { w with sContactSensorTimer := created }
  if w.sContactSensorTimer = none then
    let w := w.emit (Effect.K32W_LOG LogLine.timer_create_failed)
    InitResult.assert_failed w
  else
    let w := w.set_mState State_t.kState_LockingCompleted
    InitResult.returned err w

/-- Function `ContactSensorManager::SetCallbacks`. -/
def SetCallbacks (aActionInitiated_CB : Callback_fn_initiated)
    (aActionCompleted_CB : Callback_fn_completed) (w : World) : World :=
  { w with sContactSensor :=
      { w.sContactSensor with
          mActionInitiated_CB := aActionInitiated_CB
          mActionCompleted_CB := aActionCompleted_CB } }

/-- Function `ContactSensorManager::IsActionInProgress`: the returned value and the object
after the call. -/
def IsActionInProgress (self : ContactSensorManager) : Bool × ContactSensorManager :=
  (if self.mState = State_t.kState_LockingInitiated ∨
      self.mState = State_t.kState_UnlockingInitiated then true else false, self)

/-- Function `ContactSensorManager::IsUnlocked`: the returned value and the object after
the call. -/
def IsUnlocked (self : ContactSensorManager) : Bool × ContactSensorManager :=
  (if self.mState = State_t.kState_UnlockingCompleted then true else false, self)

/-- Function `ContactSensorManager::CancelTimer`. -/
def CancelTimer (rtos : TimerService) (w : World) : World :=
  let w := w.emit (Effect.xTimerStop w.sContactSensorTimer 0)
  if rtos.xTimerStop = BaseType_t.pdFAIL then
    w.emit (Effect.K32W_LOG LogLine.timer_stop_failed)
  else
    w

/-- Function `ContactSensorManager::StartTimer`.  The parameter is a `uint32_t`; the
division is the unsigned division of C++ (undefined there when the divisor is 0). -/
def StartTimer (cfg : Config) (rtos : TimerService) (aTimeoutMs : Nat) (w : World) : World :=
  let aTimeoutMs := aTimeoutMs % 2 ^ 32
  let w :=
    if rtos.xTimerIsTimerActive then
      let w := w.emit (Effect.K32W_LOG LogLine.timer_already_started)
      CancelTimer rtos w
    else
      w
  let w := w.emit
    (Effect.xTimerChangePeriod w.sContactSensorTimer (aTimeoutMs / cfg.portTICK_PERIOD_MS) 100)
  if rtos.xTimerChangePeriod ≠ BaseType_t.pdPASS then
    w.emit (Effect.K32W_LOG LogLine.timer_start_failed)
  else
    w

/-- Function `ContactSensorManager::InitiateAction`.  `new_state` is declared without an
initialiser, hence an `Option`; it is read only where it has been assigned. -/
def InitiateAction (cfg : Config) (rtos : TimerService) (aActor : Int) (aAction : Action_t)
    (w : World) : Bool × World :=
  let action_initiated := false
  let new_state : Option State_t := none
  let (action_initiated, new_state) :=
    if w.sContactSensor.mState = State_t.kState_LockingCompleted ∧
        aAction = Action_t.UNLOCK_ACTION then
      (true, some State_t.kState_UnlockingInitiated)
    else if w.sContactSensor.mState = State_t.kState_UnlockingCompleted ∧
        aAction = Action_t.LOCK_ACTION then
      (true, some State_t.kState_LockingInitiated)
    else
      (action_initiated, new_state)
  if action_initiated then
    let w := StartTimer cfg rtos cfg.ACTUATOR_MOVEMENT_PERIOS_MS w
    let w := match new_state with
      | some s => w.set_mState s
      | none => w
    let w := match w.sContactSensor.mActionInitiated_CB with
      | some fn => w.emit (Effect.ActionInitiated_CB fn aAction aActor w.sContactSensor)
      | none => w
    (action_initiated, w)
  else
    (action_initiated, w)

/-- Function `ContactSensorManager::TimerEventHandler`.  `timerID` is what
`pvTimerGetTimerID(xTimer)` returns. -/
def TimerEventHandler (timerID : Nat) (w : World) : World :=
  let contactsensor := timerID
  let event : AppEvent :=
    { Type_ := AppEventTypes.kEventType_Timer
      Context := contactsensor
      Handler := EventHandler_t.ActuatorMovementTimerEventHandler }
  w.emit (Effect.PostEvent event)

/-- Function `ContactSensorManager::ActuatorMovementTimerEventHandler`, for an event whose
`TimerEvent.Context` points to the singleton: `contactsensor->` is `w.sContactSensor`. -/
def ActuatorMovementTimerEventHandler (w : World) : World :=
  let actionCompleted := Action_t.INVALID_ACTION
  let (w, actionCompleted) :=
    if w.sContactSensor.mState = State_t.kState_LockingInitiated then
      (w.set_mState State_t.kState_LockingCompleted, Action_t.LOCK_ACTION)
    else if w.sContactSensor.mState = State_t.kState_UnlockingInitiated then
      (w.set_mState State_t.kState_UnlockingCompleted, Action_t.UNLOCK_ACTION)
    else
      (w, actionCompleted)
  if actionCompleted ≠ Action_t.INVALID_ACTION then
    match w.sContactSensor.mActionCompleted_CB with
    | some fn => w.emit (Effect.ActionCompleted_CB fn actionCompleted w.sContactSensor)
    | none => w
  else
    w

/-- Whether an effect is the call of a user callback. -/
def Effect.isCallback : Effect → Bool
  | Effect.ActionInitiated_CB _ _ _ _ => true
  | Effect.ActionCompleted_CB _ _ _ => true
  | _ => false

/-- The calls of user callbacks in a trace, in order. -/
def callbacks (t : List Effect) : List Effect :=
  t.filter Effect.isCallback

/-- The action argument of a callback call, `none` for any other effect. -/
def Effect.callbackAction : Effect → Option Action_t
  | Effect.ActionInitiated_CB _ a _ _ => some a
  | Effect.ActionCompleted_CB _ a _ => some a
  | _ => none

/-- One operation of the application task on the manager. -/
inductive Op where
  /-- Call `InitiateAction(aActor, aAction)` with the timer service answering `rtos`. -/
  | InitiateAction (rtos : TimerService) (aActor : Int) (aAction : Action_t)
  /-- Dispatch of a timer event to `ActuatorMovementTimerEventHandler`. -/
  | ActuatorMovementTimerEventHandler
  deriving DecidableEq, Repr

/-- The world after one operation. -/
def step (cfg : Config) (w : World) : Op → World
  | Op.InitiateAction rtos aActor aAction => (InitiateAction cfg rtos aActor aAction w).2
  | Op.ActuatorMovementTimerEventHandler => ActuatorMovementTimerEventHandler w

/-- The world after a sequence of operations, first operation first. -/
def run (cfg : Config) (ops : List Op) (w : World) : World :=
  ops.foldl (step cfg) w

/-- Sample configuration: a movement of 2000 ms and a tick of 5 ms. -/
def sampleConfig : Config :=
  { ACTUATOR_MOVEMENT_PERIOS_MS := 2000, portTICK_PERIOD_MS := 5 }

/-- Sample answers of the timer service: the timer is idle and both commands pass. -/
def timerIdle : TimerService :=
  { xTimerIsTimerActive := false
    xTimerStop := BaseType_t.pdPASS
    xTimerChangePeriod := BaseType_t.pdPASS }

/-- Sample answers of the timer service: the timer is idle and the change of period fails. -/
def timerRefuses : TimerService :=
  { xTimerIsTimerActive := false
    xTimerStop := BaseType_t.pdPASS
    xTimerChangePeriod := BaseType_t.pdFAIL }

/-- Sample world in state `s`, with the callbacks at addresses 7 and 8, timer handle 1 and
an empty trace. -/
def sampleWorld (s : State_t) : World :=
  { sContactSensor :=
      { mState := s, mActionInitiated_CB := some 7, mActionCompleted_CB := some 8 }
    sContactSensorTimer := some 1
    trace := [] }

/-- Sample world in state `s` with no callback registered. -/
def sampleWorldNoCallbacks (s : State_t) : World :=
  { sContactSensor := { mState := s, mActionInitiated_CB := none, mActionCompleted_CB := none }
    sContactSensorTimer := some 1
    trace := [] }

/-- Sample sequence: a request with `INVALID_ACTION`, an unlock request, the expiry of the
timer, and a second, spurious expiry. -/
def sampleOps : List Op :=
  [Op.InitiateAction timerIdle 1 Action_t.INVALID_ACTION,
   Op.InitiateAction timerIdle 42 Action_t.UNLOCK_ACTION,
   Op.ActuatorMovementTimerEventHandler,
   Op.ActuatorMovementTimerEventHandler]

/-- The effects a sequence of operations adds to the trace of `w`. -/
def emitted (cfg : Config) (ops : List Op) (w : World) : List Effect :=
  (run cfg ops w).trace.drop w.trace.length

/-- One full cycle: an unlock request, the expiry of the timer, a lock request, the expiry
of the timer. -/
def fullCycle (rtosU : TimerService) (actorU : Int) (rtosL : TimerService) (actorL : Int) :
    List Op :=
  [Op.InitiateAction rtosU actorU Action_t.UNLOCK_ACTION,
   Op.ActuatorMovementTimerEventHandler,
   Op.InitiateAction rtosL actorL Action_t.LOCK_ACTION,
   Op.ActuatorMovementTimerEventHandler]

/-- The operations of `n` full cycles in a row. -/
def fullCycles (rtosU : TimerService) (actorU : Int) (rtosL : TimerService) (actorL : Int) :
    Nat → List Op
  | 0 => []
  | n + 1 => fullCycle rtosU actorU rtosL actorL ++ fullCycles rtosU actorU rtosL actorL n

/-- Number of calls of the initiated callback in a trace. -/
def countInitiated (t : List Effect) : Nat :=
  t.countP fun e => match e with
    | Effect.ActionInitiated_CB _ _ _ _ => true
    | _ => false

/-- Number of calls of the completed callback in a trace. -/
def countCompleted (t : List Effect) : Nat :=
  t.countP fun e => match e with
    | Effect.ActionCompleted_CB _ _ _ => true
    | _ => false

/-- A callback call without the function address, the actor and the manager seen. -/
inductive CallShape where
  | initiated (a : Action_t)
  | completed (a : Action_t)
  deriving DecidableEq, Repr

/-- The shape of a callback call, `none` for any other effect. -/
def Effect.shape : Effect → Option CallShape
  | Effect.ActionInitiated_CB _ a _ _ => some (CallShape.initiated a)
  | Effect.ActionCompleted_CB _ a _ => some (CallShape.completed a)
  | _ => none

/-- The shapes of the callback calls of a trace, in order. -/
def shapes (t : List Effect) : List CallShape :=
  t.filterMap Effect.shape

/-- The callback call that leaves state `s` in the cycle of the state machine. -/
def slot : State_t → CallShape
  | State_t.kState_LockingCompleted => CallShape.initiated Action_t.UNLOCK_ACTION
  | State_t.kState_UnlockingInitiated => CallShape.completed Action_t.UNLOCK_ACTION
  | State_t.kState_UnlockingCompleted => CallShape.initiated Action_t.LOCK_ACTION
  | State_t.kState_LockingInitiated => CallShape.completed Action_t.LOCK_ACTION

/-- The state that follows `s` in the cycle of the state machine. -/
def nextState : State_t → State_t
  | State_t.kState_LockingCompleted => State_t.kState_UnlockingInitiated
  | State_t.kState_UnlockingInitiated => State_t.kState_UnlockingCompleted
  | State_t.kState_UnlockingCompleted => State_t.kState_LockingInitiated
  | State_t.kState_LockingInitiated => State_t.kState_LockingCompleted

/-- The first `n` calls of the repeating pattern, read from state `s` on. -/
def patternFrom : State_t → Nat → List CallShape
  | _, 0 => []
  | s, n + 1 => slot s :: patternFrom (nextState s) n

/-- The first `n` calls of the repeating pattern initiated(Unlock), completed(Unlock),
initiated(Lock), completed(Lock), ... -/
def pattern (n : Nat) : List CallShape :=
  patternFrom State_t.kState_LockingCompleted n

/-- Whether a shape is that of an initiated callback call. -/
def CallShape.isInitiated : CallShape → Bool
  | CallShape.initiated _ => true
  | CallShape.completed _ => false

/-- Whether a shape is that of a completed callback call. -/
def CallShape.isCompleted : CallShape → Bool
  | CallShape.initiated _ => false
  | CallShape.completed _ => true

/-- Modelled from the spec: the FreeRTOS one-shot timer, which is not among the sources,
next to the program.  `timerActive` is what `xTimerIsTimerActive` reports and `timerID` is
the id given to `xTimerCreate`, which `pvTimerGetTimerID` returns. -/
structure TimedWorld where
  world : World
  timerActive : Bool
  timerID : Nat
  deriving DecidableEq, Repr

/-- Modelled from the spec: the answers of a well-behaved timer that is `active`: the query
reports its state, and both commands are accepted. -/
def wellBehaved (active : Bool) : TimerService :=
  { xTimerIsTimerActive := active
    xTimerStop := BaseType_t.pdPASS
    xTimerChangePeriod := BaseType_t.pdPASS }

/-- Modelled from the spec: the state of a well-behaved timer after the effects `t`:
`xTimerStop` leaves it inactive, `xTimerChangePeriod` leaves it active (changing the period
also starts the timer), and no other effect touches it. -/
def timerAfter (active : Bool) : List Effect → Bool
  | [] => active
  | Effect.xTimerStop _ _ :: t => timerAfter false t
  | Effect.xTimerChangePeriod _ _ _ :: t => timerAfter true t
  | _ :: t => timerAfter active t

/-- Modelled from the spec: the system after `Init` on the object at address `this`: the
timer has been created, with id `this`, and is not running.  `none` when `Init` does not
return. -/
def TimedWorld.afterInit (this : Nat) (created : TimerHandle_t) (w : World) :
    Option TimedWorld :=
  match Init this created w with
  | InitResult.returned _ w1 => some { world := w1, timerActive := false, timerID := this }
  | InitResult.assert_failed _ => none

/-- Call of `InitiateAction` against the well-behaved timer: the timer answers from its
state, and the commands the call sends determine its state afterwards. -/
def TimedWorld.InitiateAction (cfg : Config) (aActor : Int) (aAction : Action_t)
    (s : TimedWorld) : Bool × TimedWorld :=
  let r := ContactSensor.InitiateAction cfg (wellBehaved s.timerActive) aActor aAction s.world
  (r.1,
    { s with
      world := r.2
      timerActive := timerAfter s.timerActive (r.2.trace.drop s.world.trace.length) })

/-- Modelled from the spec: expiry of the well-behaved timer.  Only a running timer expires;
it is inactive afterwards; `TimerEventHandler` posts the event and the application task
dispatches it to `ActuatorMovementTimerEventHandler` before anything else is processed. -/
def TimedWorld.expire (s : TimedWorld) : TimedWorld :=
  if s.timerActive then
    { s with
      world := ActuatorMovementTimerEventHandler (TimerEventHandler s.timerID s.world)
      timerActive := false }
  else
    s

/-- One event of the system with its timer. -/
inductive TimedOp where
  /-- Call `InitiateAction(aActor, aAction)`. -/
  | InitiateAction (aActor : Int) (aAction : Action_t)
  /-- The timer expires, if it is running. -/
  | expire
  deriving DecidableEq, Repr

/-- The system after one event. -/
def TimedWorld.step (cfg : Config) (s : TimedWorld) : TimedOp → TimedWorld
  | TimedOp.InitiateAction aActor aAction => (s.InitiateAction cfg aActor aAction).2
  | TimedOp.expire => s.expire

/-- The system after a sequence of events, first event first. -/
def TimedWorld.run (cfg : Config) (ops : List TimedOp) (s : TimedWorld) : TimedWorld :=
  ops.foldl (TimedWorld.step cfg) s

/-- Sample sequence for the system with its timer: an unlock request, a second one while
the first is in flight, the expiry, a spurious expiry, a lock request. -/
def sampleTimedOps : List TimedOp :=
  [TimedOp.InitiateAction 42 Action_t.UNLOCK_ACTION,
   TimedOp.InitiateAction 43 Action_t.UNLOCK_ACTION,
   TimedOp.expire,
   TimedOp.expire,
   TimedOp.InitiateAction 44 Action_t.LOCK_ACTION]

/-- Sample system: `Init` done on the object at address 5 from the sample world, with timer
handle 1. -/
def sampleTimedWorld : TimedWorld :=
  { world := (sampleWorld State_t.kState_LockingCompleted).emit (Effect.xTimerCreate 1 false 5)
    timerActive := false
    timerID := 5 }

/-- The same effect with `actor` as the actor argument of an initiated callback call. -/
def Effect.setActor (actor : Int) : Effect → Effect
  | Effect.ActionInitiated_CB fn a _ seen => Effect.ActionInitiated_CB fn a actor seen
  | e => e

/-- Whether an effect is a command sent to the timer. -/
def Effect.isTimerCommand : Effect → Bool
  | Effect.xTimerStop _ _ => true
  | Effect.xTimerChangePeriod _ _ _ => true
  | _ => false

/-- The commands sent to the timer in a trace, in order. -/
def timerCommands (t : List Effect) : List Effect :=
  t.filter Effect.isTimerCommand

end ContactSensor

namespace ContactSensor

open State_t Action_t

/-! ## Auxiliary facts -/

theorem callbacks_append (s t : List Effect) : callbacks (s ++ t) = callbacks s ++ callbacks t := by
  simp [callbacks]

theorem CancelTimer_sContactSensor (rtos : TimerService) (w : World) :
    (CancelTimer rtos w).sContactSensor = w.sContactSensor := by
  unfold CancelTimer
  split <;> rfl

theorem CancelTimer_callbacks (rtos : TimerService) (w : World) :
    callbacks (CancelTimer rtos w).trace = callbacks w.trace := by
  unfold CancelTimer
  split <;> simp [World.emit, callbacks, Effect.isCallback]

theorem StartTimer_sContactSensor (cfg : Config) (rtos : TimerService) (ms : Nat) (w : World) :
    (StartTimer cfg rtos ms w).sContactSensor = w.sContactSensor := by
  unfold StartTimer
  cases rtos.xTimerIsTimerActive <;> cases rtos.xTimerChangePeriod <;>
    simp [World.emit, CancelTimer_sContactSensor]

theorem StartTimer_callbacks (cfg : Config) (rtos : TimerService) (ms : Nat) (w : World) :
    callbacks (StartTimer cfg rtos ms w).trace = callbacks w.trace := by
  unfold StartTimer
  cases rtos.xTimerIsTimerActive <;> cases rtos.xTimerChangePeriod <;>
    simp [World.emit, callbacks_append, CancelTimer_callbacks] <;>
    simp [callbacks, Effect.isCallback]

/-- The world after a legal request that targets state `s`. -/
theorem InitiateAction_legal (cfg : Config) (rtos : TimerService) (aActor : Int)
    (aAction : Action_t) (w : World) (s : State_t)
    (h : (w.sContactSensor.mState = kState_LockingCompleted ∧ aAction = UNLOCK_ACTION ∧
            s = kState_UnlockingInitiated) ∨
         (w.sContactSensor.mState = kState_UnlockingCompleted ∧ aAction = LOCK_ACTION ∧
            s = kState_LockingInitiated)) :
    InitiateAction cfg rtos aActor aAction w =
      (true,
        match w.sContactSensor.mActionInitiated_CB with
        | some fn =>
            ((StartTimer cfg rtos cfg.ACTUATOR_MOVEMENT_PERIOS_MS w).set_mState s).emit
              (Effect.ActionInitiated_CB fn aAction aActor { w.sContactSensor with mState := s })
        | none => (StartTimer cfg rtos cfg.ACTUATOR_MOVEMENT_PERIOS_MS w).set_mState s) := by
  have hS := StartTimer_sContactSensor cfg rtos cfg.ACTUATOR_MOVEMENT_PERIOS_MS w
  rcases h with ⟨h1, h2, h3⟩ | ⟨h1, h2, h3⟩ <;> subst h2 <;> subst h3 <;>
    cases hcb : w.sContactSensor.mActionInitiated_CB <;>
    simp [InitiateAction, h1, World.set_mState, hS, hcb]

/-- A request that is not one of the two legal pairs changes nothing. -/
theorem InitiateAction_illegal (cfg : Config) (rtos : TimerService) (aActor : Int)
    (aAction : Action_t) (w : World)
    (h : ¬ ((w.sContactSensor.mState = kState_LockingCompleted ∧ aAction = UNLOCK_ACTION) ∨
            (w.sContactSensor.mState = kState_UnlockingCompleted ∧ aAction = LOCK_ACTION))) :
    InitiateAction cfg rtos aActor aAction w = (false, w) := by
  rw [not_or] at h
  simp [InitiateAction, h.1, h.2]

/-- The four cases of `ActuatorMovementTimerEventHandler`, by the state at entry. -/
theorem ActuatorMovementTimerEventHandler_eq (w : World) :
    ActuatorMovementTimerEventHandler w =
      match w.sContactSensor.mState, w.sContactSensor.mActionCompleted_CB with
      | kState_LockingInitiated, some fn =>
          (w.set_mState kState_LockingCompleted).emit
            (Effect.ActionCompleted_CB fn LOCK_ACTION
              { w.sContactSensor with mState := kState_LockingCompleted })
      | kState_LockingInitiated, none => w.set_mState kState_LockingCompleted
      | kState_UnlockingInitiated, some fn =>
          (w.set_mState kState_UnlockingCompleted).emit
            (Effect.ActionCompleted_CB fn UNLOCK_ACTION
              { w.sContactSensor with mState := kState_UnlockingCompleted })
      | kState_UnlockingInitiated, none => w.set_mState kState_UnlockingCompleted
      | _, _ => w := by
  cases hs : w.sContactSensor.mState <;> cases hcb : w.sContactSensor.mActionCompleted_CB <;>
    simp [ActuatorMovementTimerEventHandler, hs, hcb, World.set_mState]

/-- `StartTimer` only appends to the trace, and appends no callback call. -/
theorem StartTimer_trace (cfg : Config) (rtos : TimerService) (ms : Nat) (w : World) :
    ∃ d, (StartTimer cfg rtos ms w).trace = w.trace ++ d ∧ ∀ e ∈ d, e.isCallback = false := by
  unfold StartTimer CancelTimer
  cases rtos.xTimerIsTimerActive <;> cases rtos.xTimerChangePeriod <;>
    cases rtos.xTimerStop <;>
    simp only [World.emit, List.append_assoc, ne_eq, reduceCtorEq, not_false_eq_true,
      not_true_eq_false, ite_true, ite_false, Bool.false_eq_true] <;>
    exact ⟨_, rfl, by simp [Effect.isCallback]⟩

/-- `InitiateAction` only appends to the trace, and a callback call among what it appends is
the call of an initiated callback with the arguments of the request, made on the manager as
it is when `InitiateAction` returns, in the `Initiated` state of the requested action. -/
theorem InitiateAction_trace (cfg : Config) (rtos : TimerService) (aActor : Int)
    (aAction : Action_t) (w : World) :
    ∃ d, (InitiateAction cfg rtos aActor aAction w).2.trace = w.trace ++ d ∧
      ∀ e ∈ d, e.isCallback = true →
        (∃ fn, e = Effect.ActionInitiated_CB fn aAction aActor
            (InitiateAction cfg rtos aActor aAction w).2.sContactSensor) ∧
        ((aAction = UNLOCK_ACTION ∧
            (InitiateAction cfg rtos aActor aAction w).2.sContactSensor.mState
              = kState_UnlockingInitiated) ∨
         (aAction = LOCK_ACTION ∧
            (InitiateAction cfg rtos aActor aAction w).2.sContactSensor.mState
              = kState_LockingInitiated)) := by
  obtain ⟨d, hd, hdcb⟩ := StartTimer_trace cfg rtos cfg.ACTUATOR_MOVEMENT_PERIOS_MS w
  have hS := StartTimer_sContactSensor cfg rtos cfg.ACTUATOR_MOVEMENT_PERIOS_MS w
  by_cases hlegal :
      (w.sContactSensor.mState = kState_LockingCompleted ∧ aAction = UNLOCK_ACTION) ∨
      (w.sContactSensor.mState = kState_UnlockingCompleted ∧ aAction = LOCK_ACTION)
  · have key : ∀ s : State_t,
        ((w.sContactSensor.mState = kState_LockingCompleted ∧ aAction = UNLOCK_ACTION ∧
            s = kState_UnlockingInitiated) ∨
         (w.sContactSensor.mState = kState_UnlockingCompleted ∧ aAction = LOCK_ACTION ∧
            s = kState_LockingInitiated)) →
        ((aAction = UNLOCK_ACTION ∧ s = kState_UnlockingInitiated) ∨
         (aAction = LOCK_ACTION ∧ s = kState_LockingInitiated)) := by
      rintro s (⟨_, h2, h3⟩ | ⟨_, h2, h3⟩)
      · exact Or.inl ⟨h2, h3⟩
      · exact Or.inr ⟨h2, h3⟩
    obtain ⟨s, hs⟩ : ∃ s : State_t,
        (w.sContactSensor.mState = kState_LockingCompleted ∧ aAction = UNLOCK_ACTION ∧
            s = kState_UnlockingInitiated) ∨
        (w.sContactSensor.mState = kState_UnlockingCompleted ∧ aAction = LOCK_ACTION ∧
            s = kState_LockingInitiated) := by
      rcases hlegal with ⟨h1, h2⟩ | ⟨h1, h2⟩
      · exact ⟨_, Or.inl ⟨h1, h2, rfl⟩⟩
      · exact ⟨_, Or.inr ⟨h1, h2, rfl⟩⟩
    rw [InitiateAction_legal cfg rtos aActor aAction w s hs]
    cases hcb : w.sContactSensor.mActionInitiated_CB with
    | none =>
      refine ⟨d, by simp [World.set_mState, hd], ?_⟩
      intro e he hcall
      rw [hdcb e he] at hcall
      exact absurd hcall Bool.false_ne_true
    | some fn =>
      refine ⟨d ++ [Effect.ActionInitiated_CB fn aAction aActor
        { w.sContactSensor with mState := s }], by simp [World.set_mState, World.emit, hd], ?_⟩
      intro e he hcall
      rcases List.mem_append.1 he with he | he
      · rw [hdcb e he] at hcall
        exact absurd hcall Bool.false_ne_true
      · rw [List.mem_singleton] at he
        subst he
        exact ⟨⟨fn, by simp [World.set_mState, World.emit, hS]⟩,
          by simpa [World.set_mState, World.emit, hS] using key s hs⟩
  · rw [InitiateAction_illegal cfg rtos aActor aAction w hlegal]
    exact ⟨[], by simp, by simp⟩

/-- `ActuatorMovementTimerEventHandler` only appends to the trace, and what it appends is at
most the call of a completed callback, made on the manager as it is when the handler returns,
in the `Completed` state of the action passed. -/
theorem ActuatorMovementTimerEventHandler_trace (w : World) :
    ∃ d, (ActuatorMovementTimerEventHandler w).trace = w.trace ++ d ∧
      ∀ e ∈ d, ∃ fn a, e = Effect.ActionCompleted_CB fn a
          (ActuatorMovementTimerEventHandler w).sContactSensor ∧
        ((a = LOCK_ACTION ∧
            (ActuatorMovementTimerEventHandler w).sContactSensor.mState
              = kState_LockingCompleted) ∨
         (a = UNLOCK_ACTION ∧
            (ActuatorMovementTimerEventHandler w).sContactSensor.mState
              = kState_UnlockingCompleted)) := by
  rw [ActuatorMovementTimerEventHandler_eq]
  cases hs : w.sContactSensor.mState <;> cases hcb : w.sContactSensor.mActionCompleted_CB <;>
    simp only [World.set_mState, World.emit]
  case kState_LockingInitiated.some fn =>
    exact ⟨[_], rfl, by simp⟩
  case kState_UnlockingInitiated.some fn =>
    exact ⟨[_], rfl, by simp⟩
  all_goals exact ⟨[], by simp, by simp⟩

/-- A sequence of operations only appends to the trace, and every callback call among what
it appends passes `LOCK_ACTION` or `UNLOCK_ACTION`. -/
theorem run_trace (cfg : Config) (ops : List Op) :
    ∀ w : World, ∃ d, (run cfg ops w).trace = w.trace ++ d ∧
      ∀ e ∈ d, ∀ a, e.callbackAction = some a → a = LOCK_ACTION ∨ a = UNLOCK_ACTION := by
  induction ops with
  | nil => intro w; exact ⟨[], by simp [run], by simp⟩
  | cons op ops ih =>
    intro w
    have hstep : ∃ d, (step cfg w op).trace = w.trace ++ d ∧
        ∀ e ∈ d, ∀ a, e.callbackAction = some a → a = LOCK_ACTION ∨ a = UNLOCK_ACTION := by
      cases op with
      | InitiateAction rtos aActor aAction =>
        obtain ⟨d, hd, hcall⟩ := InitiateAction_trace cfg rtos aActor aAction w
        refine ⟨d, hd, ?_⟩
        intro e he a ha
        have hcb : e.isCallback = true := by
          cases e <;> simp [Effect.callbackAction] at ha <;> rfl
        obtain ⟨⟨fn, hfn⟩, hact⟩ := hcall e he hcb
        subst hfn
        simp only [Effect.callbackAction, Option.some.injEq] at ha
        subst ha
        rcases hact with ⟨h, _⟩ | ⟨h, _⟩
        · exact Or.inr h
        · exact Or.inl h
      | ActuatorMovementTimerEventHandler =>
        obtain ⟨d, hd, hcall⟩ := ActuatorMovementTimerEventHandler_trace w
        refine ⟨d, hd, ?_⟩
        intro e he a ha
        obtain ⟨fn, b, hb, hact⟩ := hcall e he
        subst hb
        simp only [Effect.callbackAction, Option.some.injEq] at ha
        subst ha
        rcases hact with ⟨h, _⟩ | ⟨h, _⟩
        · exact Or.inl h
        · exact Or.inr h
    obtain ⟨d1, hd1, h1⟩ := hstep
    obtain ⟨d2, hd2, h2⟩ := ih (step cfg w op)
    refine ⟨d1 ++ d2, ?_, ?_⟩
    · have : run cfg (op :: ops) w = run cfg ops (step cfg w op) := rfl
      rw [this, hd2, hd1, List.append_assoc]
    · intro e he
      rcases List.mem_append.1 he with he | he
      · exact h1 e he
      · exact h2 e he

/-- The manager after `InitiateAction`: only `mState` can differ, and only by one of the two
legal transitions. -/
theorem InitiateAction_sContactSensor (cfg : Config) (rtos : TimerService) (aActor : Int)
    (aAction : Action_t) (w : World) :
    (InitiateAction cfg rtos aActor aAction w).2.sContactSensor =
      { w.sContactSensor with
        mState :=
          if w.sContactSensor.mState = kState_LockingCompleted ∧ aAction = UNLOCK_ACTION then
            kState_UnlockingInitiated
          else if w.sContactSensor.mState = kState_UnlockingCompleted ∧
              aAction = LOCK_ACTION then
            kState_LockingInitiated
          else w.sContactSensor.mState } := by
  have hS := StartTimer_sContactSensor cfg rtos cfg.ACTUATOR_MOVEMENT_PERIOS_MS w
  by_cases h1 : w.sContactSensor.mState = kState_LockingCompleted ∧ aAction = UNLOCK_ACTION
  · rw [InitiateAction_legal cfg rtos aActor aAction w kState_UnlockingInitiated
      (Or.inl ⟨h1.1, h1.2, rfl⟩)]
    cases hcb : w.sContactSensor.mActionInitiated_CB <;>
      simp [h1, World.set_mState, World.emit, hS]
  · by_cases h2 : w.sContactSensor.mState = kState_UnlockingCompleted ∧ aAction = LOCK_ACTION
    · rw [InitiateAction_legal cfg rtos aActor aAction w kState_LockingInitiated
        (Or.inr ⟨h2.1, h2.2, rfl⟩)]
      cases hcb : w.sContactSensor.mActionInitiated_CB <;>
        simp [h1, h2, World.set_mState, World.emit, hS]
    · rw [InitiateAction_illegal cfg rtos aActor aAction w (not_or.2 ⟨h1, h2⟩)]
      simp [h1, h2]

/-- The manager after `ActuatorMovementTimerEventHandler`: only `mState` can differ, and only
from an `Initiated` state to its `Completed` state. -/
theorem ActuatorMovementTimerEventHandler_sContactSensor (w : World) :
    (ActuatorMovementTimerEventHandler w).sContactSensor =
      { w.sContactSensor with
        mState :=
          if w.sContactSensor.mState = kState_LockingInitiated then kState_LockingCompleted
          else if w.sContactSensor.mState = kState_UnlockingInitiated then
            kState_UnlockingCompleted
          else w.sContactSensor.mState } := by
  rcases w with ⟨⟨st, ci, cc⟩, th, tr⟩
  cases st <;> cases cc <;>
    simp [ActuatorMovementTimerEventHandler, World.set_mState, World.emit]

/-- The callback calls of a legal request that targets state `s`. -/
theorem InitiateAction_callbacks_legal (cfg : Config) (rtos : TimerService) (aActor : Int)
    (aAction : Action_t) (w : World) (s : State_t)
    (h : (w.sContactSensor.mState = kState_LockingCompleted ∧ aAction = UNLOCK_ACTION ∧
            s = kState_UnlockingInitiated) ∨
         (w.sContactSensor.mState = kState_UnlockingCompleted ∧ aAction = LOCK_ACTION ∧
            s = kState_LockingInitiated)) :
    callbacks (InitiateAction cfg rtos aActor aAction w).2.trace =
      callbacks w.trace ++
        match w.sContactSensor.mActionInitiated_CB with
        | some fn =>
            [Effect.ActionInitiated_CB fn aAction aActor { w.sContactSensor with mState := s }]
        | none => [] := by
  rw [InitiateAction_legal cfg rtos aActor aAction w s h]
  have hC := StartTimer_callbacks cfg rtos cfg.ACTUATOR_MOVEMENT_PERIOS_MS w
  cases hcb : w.sContactSensor.mActionInitiated_CB
  · simp [World.set_mState, hC]
  · simp [World.set_mState, World.emit, callbacks_append, hC]
    simp [callbacks, Effect.isCallback]

theorem run_append (cfg : Config) (xs ys : List Op) (w : World) :
    run cfg (xs ++ ys) w = run cfg ys (run cfg xs w) := by
  simp [run, List.foldl_append]

theorem run_cons (cfg : Config) (op : Op) (ops : List Op) (w : World) :
    run cfg (op :: ops) w = run cfg ops (step cfg w op) := rfl

/-- A full cycle from `kState_LockingCompleted` ends in `kState_LockingCompleted`. -/
theorem run_fullCycle_mState (cfg : Config) (rtosU : TimerService) (actorU : Int)
    (rtosL : TimerService) (actorL : Int) (w : World)
    (h : w.sContactSensor.mState = kState_LockingCompleted) :
    (run cfg (fullCycle rtosU actorU rtosL actorL) w).sContactSensor.mState
      = kState_LockingCompleted := by
  simp [fullCycle, run, step, InitiateAction_sContactSensor,
    ActuatorMovementTimerEventHandler_sContactSensor, h]

/-- The callback calls of an expiry that completes action `a` into state `s`. -/
theorem ActuatorMovementTimerEventHandler_callbacks (w : World) (s : State_t) (a : Action_t)
    (h : (w.sContactSensor.mState = kState_LockingInitiated ∧ a = LOCK_ACTION ∧
            s = kState_LockingCompleted) ∨
         (w.sContactSensor.mState = kState_UnlockingInitiated ∧ a = UNLOCK_ACTION ∧
            s = kState_UnlockingCompleted)) :
    callbacks (ActuatorMovementTimerEventHandler w).trace =
      callbacks w.trace ++
        match w.sContactSensor.mActionCompleted_CB with
        | some fn => [Effect.ActionCompleted_CB fn a { w.sContactSensor with mState := s }]
        | none => [] := by
  rw [ActuatorMovementTimerEventHandler_eq]
  rcases h with ⟨h1, h2, h3⟩ | ⟨h1, h2, h3⟩ <;> subst h2 <;> subst h3 <;>
    cases hcb : w.sContactSensor.mActionCompleted_CB <;>
    simp [h1, World.set_mState, World.emit, callbacks_append] <;>
    simp [callbacks, Effect.isCallback]

theorem countInitiated_callbacks (t : List Effect) :
    countInitiated (callbacks t) = countInitiated t := by
  induction t with
  | nil => rfl
  | cons e t ih =>
    simp only [callbacks, countInitiated] at ih ⊢
    cases e <;> simp [List.filter_cons, List.countP_cons, Effect.isCallback, ih]

theorem countCompleted_callbacks (t : List Effect) :
    countCompleted (callbacks t) = countCompleted t := by
  induction t with
  | nil => rfl
  | cons e t ih =>
    simp only [callbacks, countCompleted] at ih ⊢
    cases e <;> simp [List.filter_cons, List.countP_cons, Effect.isCallback, ih]

/-- The callback calls of a full cycle from `kState_LockingCompleted` with both callbacks
registered: initiated(Unlock), completed(Unlock), initiated(Lock), completed(Lock). -/
theorem run_fullCycle_callbacks (cfg : Config) (rtosU : TimerService) (actorU : Int)
    (rtosL : TimerService) (actorL : Int) (w : World) (fnI fnC : Nat)
    (h : w.sContactSensor.mState = kState_LockingCompleted)
    (hI : w.sContactSensor.mActionInitiated_CB = some fnI)
    (hC : w.sContactSensor.mActionCompleted_CB = some fnC) :
    callbacks (run cfg (fullCycle rtosU actorU rtosL actorL) w).trace =
      callbacks w.trace ++
        [Effect.ActionInitiated_CB fnI UNLOCK_ACTION actorU
           { w.sContactSensor with mState := kState_UnlockingInitiated },
         Effect.ActionCompleted_CB fnC UNLOCK_ACTION
           { w.sContactSensor with mState := kState_UnlockingCompleted },
         Effect.ActionInitiated_CB fnI LOCK_ACTION actorL
           { w.sContactSensor with mState := kState_LockingInitiated },
         Effect.ActionCompleted_CB fnC LOCK_ACTION
           { w.sContactSensor with mState := kState_LockingCompleted }] := by
  simp only [fullCycle, run, List.foldl_cons, List.foldl_nil, step]
  have m1 := InitiateAction_sContactSensor cfg rtosU actorU UNLOCK_ACTION w
  have c1 := InitiateAction_callbacks_legal cfg rtosU actorU UNLOCK_ACTION w
    kState_UnlockingInitiated (Or.inl ⟨h, rfl, rfl⟩)
  simp only [h, hI, and_self, ite_true] at m1 c1
  generalize (InitiateAction cfg rtosU actorU UNLOCK_ACTION w).2 = w1 at m1 c1 ⊢
  have m2 := ActuatorMovementTimerEventHandler_sContactSensor w1
  have c2 := ActuatorMovementTimerEventHandler_callbacks w1 kState_UnlockingCompleted
    UNLOCK_ACTION (Or.inr ⟨by rw [m1], rfl, rfl⟩)
  simp [m1, hC] at m2 c2
  generalize ActuatorMovementTimerEventHandler w1 = w2 at m2 c2 ⊢
  have m3 := InitiateAction_sContactSensor cfg rtosL actorL LOCK_ACTION w2
  have c3 := InitiateAction_callbacks_legal cfg rtosL actorL LOCK_ACTION w2
    kState_LockingInitiated (Or.inr ⟨by rw [m2], rfl, rfl⟩)
  simp [m2, hI] at m3 c3
  generalize (InitiateAction cfg rtosL actorL LOCK_ACTION w2).2 = w3 at m3 c3 ⊢
  have c4 := ActuatorMovementTimerEventHandler_callbacks w3 kState_LockingCompleted
    LOCK_ACTION (Or.inl ⟨by rw [m3], rfl, rfl⟩)
  simp [m3, hC] at c4
  rw [c4, c3, c2, c1]
  simp [hI, hC]

/-- Any number of full cycles from `kState_LockingCompleted` ends in
`kState_LockingCompleted`. -/
theorem run_fullCycles_mState (cfg : Config) (rtosU : TimerService) (actorU : Int)
    (rtosL : TimerService) (actorL : Int) (n : Nat) :
    ∀ w : World, w.sContactSensor.mState = kState_LockingCompleted →
      (run cfg (fullCycles rtosU actorU rtosL actorL n) w).sContactSensor.mState
        = kState_LockingCompleted := by
  induction n with
  | zero => intro w h; simpa only [fullCycles, run, List.foldl_nil] using h
  | succ n ih =>
    intro w h
    rw [fullCycles, run_append]
    exact ih _ (run_fullCycle_mState cfg rtosU actorU rtosL actorL w h)

theorem shapes_append (s t : List Effect) : shapes (s ++ t) = shapes s ++ shapes t := by
  simp [shapes]

theorem shapes_callbacks (t : List Effect) : shapes (callbacks t) = shapes t := by
  induction t with
  | nil => rfl
  | cons e t ih =>
    simp only [callbacks, shapes] at ih ⊢
    cases e <;> simp [List.filter_cons, List.filterMap_cons, Effect.isCallback, Effect.shape, ih]

theorem countInitiated_shapes (t : List Effect) :
    countInitiated t = (shapes t).countP CallShape.isInitiated := by
  induction t with
  | nil => rfl
  | cons e t ih =>
    simp only [countInitiated, shapes] at ih ⊢
    cases e <;>
      simp [List.filterMap_cons, List.countP_cons, Effect.shape, CallShape.isInitiated, ih]

theorem countCompleted_shapes (t : List Effect) :
    countCompleted t = (shapes t).countP CallShape.isCompleted := by
  induction t with
  | nil => rfl
  | cons e t ih =>
    simp only [countCompleted, shapes] at ih ⊢
    cases e <;>
      simp [List.filterMap_cons, List.countP_cons, Effect.shape, CallShape.isCompleted, ih]

/-- With both callbacks registered, one operation either changes neither the state nor the
callback calls, or it makes the call that leaves the current state and moves to the next
state of the cycle. -/
theorem step_shapes (cfg : Config) (op : Op) (w : World) (fnI fnC : Nat)
    (hI : w.sContactSensor.mActionInitiated_CB = some fnI)
    (hC : w.sContactSensor.mActionCompleted_CB = some fnC) :
    (shapes (step cfg w op).trace = shapes w.trace ∧
      (step cfg w op).sContactSensor = w.sContactSensor) ∨
    (shapes (step cfg w op).trace = shapes w.trace ++ [slot w.sContactSensor.mState] ∧
      (step cfg w op).sContactSensor =
        { w.sContactSensor with mState := nextState w.sContactSensor.mState }) := by
  cases op with
  | InitiateAction rtos aActor aAction =>
    simp only [step]
    by_cases h1 : w.sContactSensor.mState = kState_LockingCompleted ∧ aAction = UNLOCK_ACTION
    · right
      have hc := InitiateAction_callbacks_legal cfg rtos aActor aAction w
        kState_UnlockingInitiated (Or.inl ⟨h1.1, h1.2, rfl⟩)
      have hm := InitiateAction_sContactSensor cfg rtos aActor aAction w
      rw [← shapes_callbacks, hc, shapes_append, shapes_callbacks, hm]
      simp [h1, hI, shapes, Effect.shape, slot, nextState]
    · by_cases h2 : w.sContactSensor.mState = kState_UnlockingCompleted ∧
          aAction = LOCK_ACTION
      · right
        have hc := InitiateAction_callbacks_legal cfg rtos aActor aAction w
          kState_LockingInitiated (Or.inr ⟨h2.1, h2.2, rfl⟩)
        have hm := InitiateAction_sContactSensor cfg rtos aActor aAction w
        rw [← shapes_callbacks, hc, shapes_append, shapes_callbacks, hm]
        simp [h2, hI, shapes, Effect.shape, slot, nextState]
      · left
        rw [InitiateAction_illegal cfg rtos aActor aAction w (not_or.2 ⟨h1, h2⟩)]
        exact ⟨rfl, rfl⟩
  | ActuatorMovementTimerEventHandler =>
    simp only [step]
    rcases w with ⟨⟨st, ci, cc⟩, th, tr⟩
    simp only at hI hC
    subst hI hC
    cases st <;>
      simp [ActuatorMovementTimerEventHandler, World.set_mState, World.emit, shapes,
        Effect.shape, slot, nextState]

/-- With both callbacks registered, the callback calls a sequence of operations adds are
the first calls of the repeating pattern, read from the state at the start. -/
theorem run_shapes (cfg : Config) (ops : List Op) (fnI fnC : Nat) :
    ∀ w : World, w.sContactSensor.mActionInitiated_CB = some fnI →
      w.sContactSensor.mActionCompleted_CB = some fnC →
      ∃ m, shapes (run cfg ops w).trace
        = shapes w.trace ++ patternFrom w.sContactSensor.mState m := by
  induction ops with
  | nil => intro w _ _; exact ⟨0, by simp [run, patternFrom]⟩
  | cons op ops ih =>
    intro w hI hC
    rw [run_cons]
    rcases step_shapes cfg op w fnI fnC hI hC with ⟨hs, hm⟩ | ⟨hs, hm⟩
    · obtain ⟨m, hm2⟩ := ih (step cfg w op) (by rw [hm]; exact hI) (by rw [hm]; exact hC)
      exact ⟨m, by rw [hm2, hs, hm]⟩
    · obtain ⟨m, hm2⟩ := ih (step cfg w op) (by rw [hm]; exact hI) (by rw [hm]; exact hC)
      exact ⟨m + 1, by rw [hm2, hs, hm]; simp [patternFrom]⟩

/-- In the repeating pattern a completed call is either the first call, read from an
`Initiated` state, or it comes right after the initiated call of the same action. -/
theorem patternFrom_completed_preceded (m : Nat) :
    ∀ (s : State_t) (pre post : List CallShape) (a : Action_t),
      patternFrom s m = pre ++ CallShape.completed a :: post →
      (pre = [] ∧ slot s = CallShape.completed a) ∨
      ∃ front, pre = front ++ [CallShape.initiated a] := by
  induction m with
  | zero => intro s pre post a h; simp [patternFrom] at h
  | succ m ih =>
    intro s pre post a h
    cases pre with
    | nil =>
      simp only [patternFrom, List.nil_append, List.cons.injEq] at h
      exact Or.inl ⟨rfl, h.1⟩
    | cons x rest =>
      simp only [patternFrom, List.cons_append, List.cons.injEq] at h
      obtain ⟨hx, hrest⟩ := h
      right
      rcases ih (nextState s) rest post a hrest with ⟨hnil, hslot⟩ | ⟨front, hfront⟩
      · subst hnil
        refine ⟨[], ?_⟩
        rw [← hx]
        cases s <;> simp [slot, nextState] at hslot ⊢ <;> exact hslot
      · exact ⟨x :: front, by rw [hfront]; rfl⟩

/-- In the repeating pattern read from a `Completed` state the completed calls never
outnumber the initiated calls and are at most one fewer; read from an `Initiated` state it
is the other way round. -/
theorem patternFrom_counts (m : Nat) :
    ∀ s : State_t,
      ((s = kState_LockingCompleted ∨ s = kState_UnlockingCompleted) →
        (patternFrom s m).countP CallShape.isCompleted
            ≤ (patternFrom s m).countP CallShape.isInitiated ∧
        (patternFrom s m).countP CallShape.isInitiated
            ≤ (patternFrom s m).countP CallShape.isCompleted + 1) ∧
      ((s = kState_LockingInitiated ∨ s = kState_UnlockingInitiated) →
        (patternFrom s m).countP CallShape.isInitiated
            ≤ (patternFrom s m).countP CallShape.isCompleted ∧
        (patternFrom s m).countP CallShape.isCompleted
            ≤ (patternFrom s m).countP CallShape.isInitiated + 1) := by
  induction m with
  | zero => intro s; simp [patternFrom]
  | succ m ih =>
    intro s
    have h := ih (nextState s)
    cases s <;>
      simp [patternFrom, slot, nextState, List.countP_cons, CallShape.isCompleted,
        CallShape.isInitiated] at h ⊢ <;> omega

theorem StartTimer_sContactSensorTimer (cfg : Config) (rtos : TimerService) (ms : Nat)
    (w : World) : (StartTimer cfg rtos ms w).sContactSensorTimer = w.sContactSensorTimer := by
  unfold StartTimer CancelTimer
  cases rtos.xTimerIsTimerActive <;> cases rtos.xTimerChangePeriod <;>
    cases rtos.xTimerStop <;> simp [World.emit]

theorem InitiateAction_sContactSensorTimer (cfg : Config) (rtos : TimerService) (aActor : Int)
    (aAction : Action_t) (w : World) :
    (InitiateAction cfg rtos aActor aAction w).2.sContactSensorTimer
      = w.sContactSensorTimer := by
  have hT := StartTimer_sContactSensorTimer cfg rtos cfg.ACTUATOR_MOVEMENT_PERIOS_MS w
  by_cases hlegal :
      (w.sContactSensor.mState = kState_LockingCompleted ∧ aAction = UNLOCK_ACTION) ∨
      (w.sContactSensor.mState = kState_UnlockingCompleted ∧ aAction = LOCK_ACTION)
  · rcases hlegal with ⟨h1, h2⟩ | ⟨h1, h2⟩
    · rw [InitiateAction_legal cfg rtos aActor aAction w kState_UnlockingInitiated
        (Or.inl ⟨h1, h2, rfl⟩)]
      cases w.sContactSensor.mActionInitiated_CB <;> simp [World.set_mState, World.emit, hT]
    · rw [InitiateAction_legal cfg rtos aActor aAction w kState_LockingInitiated
        (Or.inr ⟨h1, h2, rfl⟩)]
      cases w.sContactSensor.mActionInitiated_CB <;> simp [World.set_mState, World.emit, hT]
  · rw [InitiateAction_illegal cfg rtos aActor aAction w hlegal]

theorem setActor_of_not_callback (actor : Int) (e : Effect) (h : e.isCallback = false) :
    e.setActor actor = e := by
  cases e <;> simp [Effect.isCallback] at h <;> rfl

/-- What `InitiateAction` appends to the trace: nothing for an illegal request; for a legal
one, effects of `StartTimer` that do not depend on the actor and are no callback calls,
followed by the call of the initiated callback if one is registered. -/
theorem InitiateAction_trace_actor (cfg : Config) (rtos : TimerService) (aAction : Action_t)
    (w : World) :
    ∃ d : List Effect, (∀ e ∈ d, e.isCallback = false) ∧
      ∃ cb : Option (Nat × ContactSensorManager), ∀ aActor : Int,
        (InitiateAction cfg rtos aActor aAction w).2.trace =
          w.trace ++ d ++
            match cb with
            | some (fn, seen) => [Effect.ActionInitiated_CB fn aAction aActor seen]
            | none => [] := by
  obtain ⟨d, hd, hdcb⟩ := StartTimer_trace cfg rtos cfg.ACTUATOR_MOVEMENT_PERIOS_MS w
  by_cases hlegal :
      (w.sContactSensor.mState = kState_LockingCompleted ∧ aAction = UNLOCK_ACTION) ∨
      (w.sContactSensor.mState = kState_UnlockingCompleted ∧ aAction = LOCK_ACTION)
  · obtain ⟨s, hs⟩ : ∃ s : State_t,
        (w.sContactSensor.mState = kState_LockingCompleted ∧ aAction = UNLOCK_ACTION ∧
            s = kState_UnlockingInitiated) ∨
        (w.sContactSensor.mState = kState_UnlockingCompleted ∧ aAction = LOCK_ACTION ∧
            s = kState_LockingInitiated) := by
      rcases hlegal with ⟨h1, h2⟩ | ⟨h1, h2⟩
      · exact ⟨_, Or.inl ⟨h1, h2, rfl⟩⟩
      · exact ⟨_, Or.inr ⟨h1, h2, rfl⟩⟩
    refine ⟨d, hdcb, ?_⟩
    cases hcb : w.sContactSensor.mActionInitiated_CB with
    | none =>
      refine ⟨none, fun aActor => ?_⟩
      rw [InitiateAction_legal cfg rtos aActor aAction w s hs]
      simp [hcb, World.set_mState, hd]
    | some fn =>
      refine ⟨some (fn, { w.sContactSensor with mState := s }), fun aActor => ?_⟩
      rw [InitiateAction_legal cfg rtos aActor aAction w s hs]
      simp [hcb, World.set_mState, World.emit, hd]
  · refine ⟨[], by simp, none, fun aActor => ?_⟩
    rw [InitiateAction_illegal cfg rtos aActor aAction w hlegal]
    simp

/-- Against a well-behaved timer whose state agrees with `IsActionInProgress()`, what
`InitiateAction` adds to the trace is at most one `xTimerChangePeriod` and one callback
call, and the state of the timer agrees with `IsActionInProgress()` afterwards. -/
theorem TimedWorld.InitiateAction_inv (cfg : Config) (aActor : Int) (aAction : Action_t)
    (s : TimedWorld)
    (h : s.timerActive = (IsActionInProgress s.world.sContactSensor).1) :
    (s.InitiateAction cfg aActor aAction).2.timerActive
      = (IsActionInProgress (s.InitiateAction cfg aActor aAction).2.world.sContactSensor).1 ∧
    ∀ e ∈ (s.InitiateAction cfg aActor aAction).2.world.trace.drop s.world.trace.length,
      (∃ xTimer ticks wait, e = Effect.xTimerChangePeriod xTimer ticks wait) ∨
      e.isCallback = true := by
  rcases s with ⟨⟨⟨st, ci, cc⟩, th, tr⟩, act, id⟩
  simp only [IsActionInProgress] at h
  cases st <;> cases aAction <;> cases ci <;> simp at h <;> subst h <;>
    simp [TimedWorld.InitiateAction, ContactSensor.InitiateAction, StartTimer, wellBehaved,
      World.emit, World.set_mState, IsActionInProgress, timerAfter, Effect.isCallback]

/-- The expiry of a well-behaved timer keeps its state in agreement with
`IsActionInProgress()`. -/
theorem TimedWorld.expire_inv (s : TimedWorld)
    (h : s.timerActive = (IsActionInProgress s.world.sContactSensor).1) :
    s.expire.timerActive = (IsActionInProgress s.expire.world.sContactSensor).1 := by
  rcases s with ⟨⟨⟨st, ci, cc⟩, th, tr⟩, act, id⟩
  simp only [IsActionInProgress] at h
  cases st <;> cases cc <;> simp at h <;> subst h <;>
    simp [TimedWorld.expire, ActuatorMovementTimerEventHandler, TimerEventHandler,
      World.emit, World.set_mState, IsActionInProgress]

/-- Every sequence of events keeps the state of a well-behaved timer in agreement with
`IsActionInProgress()`. -/
theorem TimedWorld.run_inv (cfg : Config) (ops : List TimedOp) :
    ∀ s : TimedWorld, s.timerActive = (IsActionInProgress s.world.sContactSensor).1 →
      (TimedWorld.run cfg ops s).timerActive
        = (IsActionInProgress (TimedWorld.run cfg ops s).world.sContactSensor).1 := by
  induction ops with
  | nil => intro s h; exact h
  | cons op ops ih =>
    intro s h
    have hstep : (TimedWorld.step cfg s op).timerActive
        = (IsActionInProgress (TimedWorld.step cfg s op).world.sContactSensor).1 := by
      cases op with
      | InitiateAction aActor aAction =>
        exact (TimedWorld.InitiateAction_inv cfg aActor aAction s h).1
      | expire => exact TimedWorld.expire_inv s h
    exact ih _ hstep

/-! ## InitiateAction -/

/-- C1: for every actor, `InitiateAction(actor, UNLOCK_ACTION)` in state
`kState_LockingCompleted` returns true and leaves the manager in
`kState_UnlockingInitiated`; a registered initiated callback is called exactly once, with
`(UNLOCK_ACTION, actor)`, and with no callback registered no callback is called. -/
theorem C1_InitiateAction_unlock (cfg : Config) (rtos : TimerService) (aActor : Int) (w : World)
    (h : w.sContactSensor.mState = kState_LockingCompleted) :
    (InitiateAction cfg rtos aActor UNLOCK_ACTION w).1 = true ∧
    (InitiateAction cfg rtos aActor UNLOCK_ACTION w).2.sContactSensor.mState
      = kState_UnlockingInitiated ∧
    (∀ fn, w.sContactSensor.mActionInitiated_CB = some fn →
      callbacks (InitiateAction cfg rtos aActor UNLOCK_ACTION w).2.trace =
        callbacks w.trace ++
          [Effect.ActionInitiated_CB fn UNLOCK_ACTION aActor
            { w.sContactSensor with mState := kState_UnlockingInitiated }]) ∧
    (w.sContactSensor.mActionInitiated_CB = none →
      callbacks (InitiateAction cfg rtos aActor UNLOCK_ACTION w).2.trace = callbacks w.trace) := by
  rw [InitiateAction_legal cfg rtos aActor UNLOCK_ACTION w kState_UnlockingInitiated
    (Or.inl ⟨h, rfl, rfl⟩)]
  have hC := StartTimer_callbacks cfg rtos cfg.ACTUATOR_MOVEMENT_PERIOS_MS w
  refine ⟨rfl, ?_, ?_, ?_⟩
  · cases w.sContactSensor.mActionInitiated_CB <;> simp [World.set_mState, World.emit]
  · intro fn hfn
    simp [hfn, World.set_mState, World.emit, callbacks_append, hC]
    simp [callbacks, Effect.isCallback]
  · intro hnone
    simp [hnone, World.set_mState, hC]

/-- Instance of C1: actor 42 on the sample world, in state `kState_LockingCompleted`. -/
theorem C1_InitiateAction_unlock_witness :
    (sampleWorld kState_LockingCompleted).sContactSensor.mState = kState_LockingCompleted ∧
    (InitiateAction sampleConfig timerIdle 42 UNLOCK_ACTION
      (sampleWorld kState_LockingCompleted)).1 = true ∧
    (InitiateAction sampleConfig timerIdle 42 UNLOCK_ACTION
      (sampleWorld kState_LockingCompleted)).2.sContactSensor.mState
        = kState_UnlockingInitiated ∧
    callbacks (InitiateAction sampleConfig timerIdle 42 UNLOCK_ACTION
      (sampleWorld kState_LockingCompleted)).2.trace =
        [Effect.ActionInitiated_CB 7 UNLOCK_ACTION 42
          { mState := kState_UnlockingInitiated
            mActionInitiated_CB := some 7, mActionCompleted_CB := some 8 }] :=
  have h := C1_InitiateAction_unlock sampleConfig timerIdle 42
    (sampleWorld kState_LockingCompleted) rfl
  ⟨rfl, h.1, h.2.1, h.2.2.1 7 rfl⟩

/-- C2: for every actor, `InitiateAction(actor, LOCK_ACTION)` in state
`kState_UnlockingCompleted` returns true and leaves the manager in `kState_LockingInitiated`;
a registered initiated callback is called exactly once, with `(LOCK_ACTION, actor)`. -/
theorem C2_InitiateAction_lock (cfg : Config) (rtos : TimerService) (aActor : Int) (w : World)
    (h : w.sContactSensor.mState = kState_UnlockingCompleted) :
    (InitiateAction cfg rtos aActor LOCK_ACTION w).1 = true ∧
    (InitiateAction cfg rtos aActor LOCK_ACTION w).2.sContactSensor.mState
      = kState_LockingInitiated ∧
    (∀ fn, w.sContactSensor.mActionInitiated_CB = some fn →
      callbacks (InitiateAction cfg rtos aActor LOCK_ACTION w).2.trace =
        callbacks w.trace ++
          [Effect.ActionInitiated_CB fn LOCK_ACTION aActor
            { w.sContactSensor with mState := kState_LockingInitiated }]) := by
  rw [InitiateAction_legal cfg rtos aActor LOCK_ACTION w kState_LockingInitiated
    (Or.inr ⟨h, rfl, rfl⟩)]
  have hC := StartTimer_callbacks cfg rtos cfg.ACTUATOR_MOVEMENT_PERIOS_MS w
  refine ⟨rfl, ?_, ?_⟩
  · cases w.sContactSensor.mActionInitiated_CB <;> simp [World.set_mState, World.emit]
  · intro fn hfn
    simp [hfn, World.set_mState, World.emit, callbacks_append, hC]
    simp [callbacks, Effect.isCallback]

/-- Instance of C2: actor -3 on the sample world, in state `kState_UnlockingCompleted`. -/
theorem C2_InitiateAction_lock_witness :
    (sampleWorld kState_UnlockingCompleted).sContactSensor.mState = kState_UnlockingCompleted ∧
    (sampleWorld kState_UnlockingCompleted).sContactSensor.mActionInitiated_CB = some 7 ∧
    (InitiateAction sampleConfig timerIdle (-3) LOCK_ACTION
      (sampleWorld kState_UnlockingCompleted)).1 = true ∧
    (InitiateAction sampleConfig timerIdle (-3) LOCK_ACTION
      (sampleWorld kState_UnlockingCompleted)).2.sContactSensor.mState
        = kState_LockingInitiated ∧
    callbacks (InitiateAction sampleConfig timerIdle (-3) LOCK_ACTION
      (sampleWorld kState_UnlockingCompleted)).2.trace =
        [Effect.ActionInitiated_CB 7 LOCK_ACTION (-3)
          { mState := kState_LockingInitiated
            mActionInitiated_CB := some 7, mActionCompleted_CB := some 8 }] :=
  have h := C2_InitiateAction_lock sampleConfig timerIdle (-3)
    (sampleWorld kState_UnlockingCompleted) rfl
  ⟨rfl, rfl, h.1, h.2.1, h.2.2 7 rfl⟩

/-- C3: `InitiateAction` returns true exactly for the pairs
(`kState_LockingCompleted`, `UNLOCK_ACTION`) and (`kState_UnlockingCompleted`, `LOCK_ACTION`);
for every other pair it returns false and the world is untouched: same manager, same timer
handle, and nothing added to the trace (no timer command, no log, no callback). -/
theorem C3_InitiateAction_true_iff_legal (cfg : Config) (rtos : TimerService) (aActor : Int)
    (aAction : Action_t) (w : World) :
    ((InitiateAction cfg rtos aActor aAction w).1 = true ↔
      ((w.sContactSensor.mState = kState_LockingCompleted ∧ aAction = UNLOCK_ACTION) ∨
       (w.sContactSensor.mState = kState_UnlockingCompleted ∧ aAction = LOCK_ACTION))) ∧
    (¬ ((w.sContactSensor.mState = kState_LockingCompleted ∧ aAction = UNLOCK_ACTION) ∨
        (w.sContactSensor.mState = kState_UnlockingCompleted ∧ aAction = LOCK_ACTION)) →
      InitiateAction cfg rtos aActor aAction w = (false, w)) := by
  refine ⟨?_, InitiateAction_illegal cfg rtos aActor aAction w⟩
  constructor
  · intro hret
    by_contra hno
    rw [InitiateAction_illegal cfg rtos aActor aAction w hno] at hret
    exact Bool.false_ne_true hret
  · rintro (⟨h1, h2⟩ | ⟨h1, h2⟩)
    · rw [InitiateAction_legal cfg rtos aActor aAction w kState_UnlockingInitiated
        (Or.inl ⟨h1, h2, rfl⟩)]
    · rw [InitiateAction_legal cfg rtos aActor aAction w kState_LockingInitiated
        (Or.inr ⟨h1, h2, rfl⟩)]

/-- Instance of C3: `LOCK_ACTION` requested in state `kState_LockingInitiated`. -/
theorem C3_InitiateAction_true_iff_legal_witness :
    ¬ (((sampleWorld kState_LockingInitiated).sContactSensor.mState = kState_LockingCompleted ∧
          LOCK_ACTION = UNLOCK_ACTION) ∨
       ((sampleWorld kState_LockingInitiated).sContactSensor.mState = kState_UnlockingCompleted ∧
          LOCK_ACTION = LOCK_ACTION)) ∧
    InitiateAction sampleConfig timerIdle 42 LOCK_ACTION (sampleWorld kState_LockingInitiated)
      = (false, sampleWorld kState_LockingInitiated) :=
  ⟨by decide,
   (C3_InitiateAction_true_iff_legal sampleConfig timerIdle 42 LOCK_ACTION
      (sampleWorld kState_LockingInitiated)).2 (by decide)⟩

/-! ## Timer-expiry finalization -/

/-- C4: `ActuatorMovementTimerEventHandler` takes `kState_LockingInitiated` to
`kState_LockingCompleted` and calls a registered completed callback exactly once, with
`LOCK_ACTION`; it takes `kState_UnlockingInitiated` to `kState_UnlockingCompleted` and calls
it exactly once, with `UNLOCK_ACTION`; with no callback registered the state changes in the
same way and nothing is called.  Nothing else is added to the trace. -/
theorem C4_finalization_completes (w : World) :
    (w.sContactSensor.mState = kState_LockingInitiated →
      (ActuatorMovementTimerEventHandler w).sContactSensor.mState = kState_LockingCompleted ∧
      (∀ fn, w.sContactSensor.mActionCompleted_CB = some fn →
        (ActuatorMovementTimerEventHandler w).trace = w.trace ++
          [Effect.ActionCompleted_CB fn LOCK_ACTION
            { w.sContactSensor with mState := kState_LockingCompleted }]) ∧
      (w.sContactSensor.mActionCompleted_CB = none →
        (ActuatorMovementTimerEventHandler w).trace = w.trace)) ∧
    (w.sContactSensor.mState = kState_UnlockingInitiated →
      (ActuatorMovementTimerEventHandler w).sContactSensor.mState = kState_UnlockingCompleted ∧
      (∀ fn, w.sContactSensor.mActionCompleted_CB = some fn →
        (ActuatorMovementTimerEventHandler w).trace = w.trace ++
          [Effect.ActionCompleted_CB fn UNLOCK_ACTION
            { w.sContactSensor with mState := kState_UnlockingCompleted }]) ∧
      (w.sContactSensor.mActionCompleted_CB = none →
        (ActuatorMovementTimerEventHandler w).trace = w.trace)) := by
  rw [ActuatorMovementTimerEventHandler_eq]
  constructor <;> intro hs <;> cases hcb : w.sContactSensor.mActionCompleted_CB <;>
    simp [hs, World.set_mState, World.emit]

/-- Instance of C4: expiry in state `kState_UnlockingInitiated` on the sample world. -/
theorem C4_finalization_completes_witness :
    (sampleWorld kState_UnlockingInitiated).sContactSensor.mState = kState_UnlockingInitiated ∧
    (sampleWorld kState_UnlockingInitiated).sContactSensor.mActionCompleted_CB = some 8 ∧
    (ActuatorMovementTimerEventHandler (sampleWorld kState_UnlockingInitiated)).sContactSensor.mState
      = kState_UnlockingCompleted ∧
    (ActuatorMovementTimerEventHandler (sampleWorld kState_UnlockingInitiated)).trace =
      [Effect.ActionCompleted_CB 8 UNLOCK_ACTION
        { mState := kState_UnlockingCompleted
          mActionInitiated_CB := some 7, mActionCompleted_CB := some 8 }] :=
  have h := (C4_finalization_completes (sampleWorld kState_UnlockingInitiated)).2 rfl
  ⟨rfl, rfl, h.1, h.2.1 8 rfl⟩

/-- C5: `ActuatorMovementTimerEventHandler` run in `kState_LockingCompleted` or
`kState_UnlockingCompleted` leaves the world as it is (same state, nothing called); hence in
every state a second run right after the first changes nothing: same state, same trace. -/
theorem C5_finalization_idempotent (w : World) :
    ((w.sContactSensor.mState = kState_LockingCompleted ∨
        w.sContactSensor.mState = kState_UnlockingCompleted) →
      ActuatorMovementTimerEventHandler w = w) ∧
    (ActuatorMovementTimerEventHandler (ActuatorMovementTimerEventHandler w)).sContactSensor.mState
      = (ActuatorMovementTimerEventHandler w).sContactSensor.mState ∧
    (ActuatorMovementTimerEventHandler (ActuatorMovementTimerEventHandler w)).trace
      = (ActuatorMovementTimerEventHandler w).trace := by
  have hnoop : ∀ v : World, (v.sContactSensor.mState = kState_LockingCompleted ∨
      v.sContactSensor.mState = kState_UnlockingCompleted) →
      ActuatorMovementTimerEventHandler v = v := by
    intro v hv
    rw [ActuatorMovementTimerEventHandler_eq]
    rcases hv with hv | hv <;> simp [hv]
  have hdone : (ActuatorMovementTimerEventHandler w).sContactSensor.mState
        = kState_LockingCompleted ∨
      (ActuatorMovementTimerEventHandler w).sContactSensor.mState
        = kState_UnlockingCompleted := by
    rw [ActuatorMovementTimerEventHandler_eq]
    cases hs : w.sContactSensor.mState <;> cases hcb : w.sContactSensor.mActionCompleted_CB <;>
      simp [hs, World.set_mState, World.emit]
  refine ⟨hnoop w, ?_, ?_⟩ <;> rw [hnoop _ hdone]

/-- Instance of C5: a spurious expiry in state `kState_UnlockingCompleted`. -/
theorem C5_finalization_idempotent_witness :
    ((sampleWorld kState_UnlockingCompleted).sContactSensor.mState = kState_LockingCompleted ∨
      (sampleWorld kState_UnlockingCompleted).sContactSensor.mState
        = kState_UnlockingCompleted) ∧
    ActuatorMovementTimerEventHandler (sampleWorld kState_UnlockingCompleted)
      = sampleWorld kState_UnlockingCompleted :=
  ⟨Or.inr rfl,
   (C5_finalization_idempotent (sampleWorld kState_UnlockingCompleted)).1 (Or.inr rfl)⟩

/-! ## Queries -/

/-- C6: in every state `IsActionInProgress()` returns true exactly when the state is
`kState_LockingInitiated` or `kState_UnlockingInitiated`, and the world after the call on the
singleton is the world before it: same state, same callbacks, same timer handle, and no
command sent to the timer. -/
theorem C6_IsActionInProgress (w : World) :
    ((IsActionInProgress w.sContactSensor).1 = true ↔
      (w.sContactSensor.mState = kState_LockingInitiated ∨
       w.sContactSensor.mState = kState_UnlockingInitiated)) ∧
    (IsActionInProgress w.sContactSensor).2.mState = w.sContactSensor.mState ∧
    ({ w with sContactSensor := (IsActionInProgress w.sContactSensor).2 } : World) = w := by
  refine ⟨?_, rfl, rfl⟩
  simp [IsActionInProgress]

/-- C7: in every state `IsUnlocked()` returns true exactly when the state is
`kState_UnlockingCompleted`, so it returns false in the three other states, and the call
leaves the state (and the rest of the world) as it is. -/
theorem C7_IsUnlocked (w : World) :
    ((IsUnlocked w.sContactSensor).1 = true ↔
      w.sContactSensor.mState = kState_UnlockingCompleted) ∧
    (w.sContactSensor.mState = kState_LockingInitiated ∨
      w.sContactSensor.mState = kState_UnlockingInitiated ∨
      w.sContactSensor.mState = kState_LockingCompleted →
        (IsUnlocked w.sContactSensor).1 = false) ∧
    (IsUnlocked w.sContactSensor).2.mState = w.sContactSensor.mState ∧
    ({ w with sContactSensor := (IsUnlocked w.sContactSensor).2 } : World) = w := by
  refine ⟨?_, ?_, rfl, rfl⟩
  · simp [IsUnlocked]
  · rintro (h | h | h) <;> simp [IsUnlocked, h]

/-- Instance of C7: `IsUnlocked()` in state `kState_UnlockingInitiated`. -/
theorem C7_IsUnlocked_witness :
    ((sampleWorld kState_UnlockingInitiated).sContactSensor.mState = kState_LockingInitiated ∨
      (sampleWorld kState_UnlockingInitiated).sContactSensor.mState
        = kState_UnlockingInitiated ∨
      (sampleWorld kState_UnlockingInitiated).sContactSensor.mState
        = kState_LockingCompleted) ∧
    (IsUnlocked (sampleWorld kState_UnlockingInitiated).sContactSensor).1 = false :=
  ⟨Or.inr (Or.inl rfl),
   (C7_IsUnlocked (sampleWorld kState_UnlockingInitiated)).2.1 (Or.inr (Or.inl rfl))⟩

/-! ## Timer failure -/

/-- C8, the code at the failing input: `xTimerChangePeriod` answers `pdFAIL` to a legal
unlock request.  `StartTimer` logs the failure and returns nothing, and `InitiateAction`
goes on: it commits `kState_UnlockingInitiated`, calls the initiated callback and returns
true. -/
theorem C8_callback_despite_timer_failure :
    timerRefuses.xTimerChangePeriod = BaseType_t.pdFAIL ∧
    InitiateAction sampleConfig timerRefuses 42 UNLOCK_ACTION
        (sampleWorld kState_LockingCompleted) =
      (true,
        { sContactSensor :=
            { mState := kState_UnlockingInitiated
              mActionInitiated_CB := some 7, mActionCompleted_CB := some 8 }
          sContactSensorTimer := some 1
          trace :=
            [Effect.xTimerChangePeriod (some 1) 400 100,
             Effect.K32W_LOG LogLine.timer_start_failed,
             Effect.ActionInitiated_CB 7 UNLOCK_ACTION 42
               { mState := kState_UnlockingInitiated
                 mActionInitiated_CB := some 7, mActionCompleted_CB := some 8 }] }) := by
  constructor
  · rfl
  · decide

/-! ## Callbacks -/

/-- C9: a callback is called after the state is committed.  Whenever `InitiateAction` calls
the initiated callback, the manager the callee sees is the one `InitiateAction` leaves, it is
in the `Initiated` state of the action passed, and `IsActionInProgress()` on it returns true.
Whenever `ActuatorMovementTimerEventHandler` calls the completed callback, the manager the
callee sees is the one the handler leaves, it is in the `Completed` state of the action
passed, `IsActionInProgress()` on it returns false, and `IsUnlocked()` returns true exactly
when the action is `UNLOCK_ACTION`. -/
theorem C9_callbacks_after_state_commit (cfg : Config) (rtos : TimerService) (aActor : Int)
    (aAction : Action_t) (w : World) :
    (∀ fn a actor seen,
      Effect.ActionInitiated_CB fn a actor seen ∈
          (InitiateAction cfg rtos aActor aAction w).2.trace.drop w.trace.length →
        seen = (InitiateAction cfg rtos aActor aAction w).2.sContactSensor ∧
        ((a = UNLOCK_ACTION ∧ seen.mState = kState_UnlockingInitiated) ∨
         (a = LOCK_ACTION ∧ seen.mState = kState_LockingInitiated)) ∧
        (IsActionInProgress seen).1 = true) ∧
    (∀ fn a seen,
      Effect.ActionCompleted_CB fn a seen ∈
          (ActuatorMovementTimerEventHandler w).trace.drop w.trace.length →
        seen = (ActuatorMovementTimerEventHandler w).sContactSensor ∧
        ((a = LOCK_ACTION ∧ seen.mState = kState_LockingCompleted) ∨
         (a = UNLOCK_ACTION ∧ seen.mState = kState_UnlockingCompleted)) ∧
        (IsActionInProgress seen).1 = false ∧
        ((IsUnlocked seen).1 = true ↔ a = UNLOCK_ACTION)) := by
  constructor
  · intro fn a actor seen hmem
    obtain ⟨d, hd, hcall⟩ := InitiateAction_trace cfg rtos aActor aAction w
    rw [hd, List.drop_left] at hmem
    obtain ⟨⟨fn1, hfn⟩, hact⟩ := hcall _ hmem rfl
    simp only [Effect.ActionInitiated_CB.injEq] at hfn
    obtain ⟨_, ha, _, hseen⟩ := hfn
    subst ha
    rw [← hseen] at hact
    refine ⟨hseen, hact, ?_⟩
    rcases hact with ⟨_, h⟩ | ⟨_, h⟩ <;> simp [IsActionInProgress, h]
  · intro fn a seen hmem
    obtain ⟨d, hd, hcall⟩ := ActuatorMovementTimerEventHandler_trace w
    rw [hd, List.drop_left] at hmem
    obtain ⟨fn1, b, hb, hact⟩ := hcall _ hmem
    simp only [Effect.ActionCompleted_CB.injEq] at hb
    obtain ⟨_, ha, hseen⟩ := hb
    subst ha
    rw [← hseen] at hact
    refine ⟨hseen, hact, ?_⟩
    rcases hact with ⟨h1, h2⟩ | ⟨h1, h2⟩ <;> simp [IsActionInProgress, IsUnlocked, h1, h2]

/-- Instance of C9: the initiated callback called by a legal unlock request sees
`kState_UnlockingInitiated`, and the completed callback called by an expiry in state
`kState_UnlockingInitiated` sees `kState_UnlockingCompleted`. -/
theorem C9_callbacks_after_state_commit_witness :
    (Effect.ActionInitiated_CB 7 UNLOCK_ACTION 42
        { mState := kState_UnlockingInitiated
          mActionInitiated_CB := some 7, mActionCompleted_CB := some 8 } ∈
      (InitiateAction sampleConfig timerIdle 42 UNLOCK_ACTION
        (sampleWorld kState_LockingCompleted)).2.trace.drop
          (sampleWorld kState_LockingCompleted).trace.length ∧
     (IsActionInProgress
        { mState := kState_UnlockingInitiated
          mActionInitiated_CB := some 7, mActionCompleted_CB := some 8 }).1 = true) ∧
    (Effect.ActionCompleted_CB 8 UNLOCK_ACTION
        { mState := kState_UnlockingCompleted
          mActionInitiated_CB := some 7, mActionCompleted_CB := some 8 } ∈
      (ActuatorMovementTimerEventHandler (sampleWorld kState_UnlockingInitiated)).trace.drop
        (sampleWorld kState_UnlockingInitiated).trace.length ∧
     (IsActionInProgress
        { mState := kState_UnlockingCompleted
          mActionInitiated_CB := some 7, mActionCompleted_CB := some 8 }).1 = false ∧
     ((IsUnlocked
        { mState := kState_UnlockingCompleted
          mActionInitiated_CB := some 7, mActionCompleted_CB := some 8 }).1 = true ↔
       UNLOCK_ACTION = UNLOCK_ACTION)) :=
  have hinit : Effect.ActionInitiated_CB 7 UNLOCK_ACTION 42
        { mState := kState_UnlockingInitiated
          mActionInitiated_CB := some 7, mActionCompleted_CB := some 8 } ∈
      (InitiateAction sampleConfig timerIdle 42 UNLOCK_ACTION
        (sampleWorld kState_LockingCompleted)).2.trace.drop
          (sampleWorld kState_LockingCompleted).trace.length := by decide
  have hdone : Effect.ActionCompleted_CB 8 UNLOCK_ACTION
        { mState := kState_UnlockingCompleted
          mActionInitiated_CB := some 7, mActionCompleted_CB := some 8 } ∈
      (ActuatorMovementTimerEventHandler (sampleWorld kState_UnlockingInitiated)).trace.drop
        (sampleWorld kState_UnlockingInitiated).trace.length := by decide
  ⟨⟨hinit,
    ((C9_callbacks_after_state_commit sampleConfig timerIdle 42 UNLOCK_ACTION
      (sampleWorld kState_LockingCompleted)).1 7 UNLOCK_ACTION 42 _ hinit).2.2⟩,
   ⟨hdone,
    ((C9_callbacks_after_state_commit sampleConfig timerIdle 42 UNLOCK_ACTION
      (sampleWorld kState_UnlockingInitiated)).2 8 UNLOCK_ACTION _ hdone).2.2⟩⟩

/-- C10: no callback is ever called with `INVALID_ACTION`.  For every sequence of
`InitiateAction` calls (any actor, any action, any answers of the timer service) and timer
event dispatches, from any world, every callback call the sequence makes, initiated or
completed, passes `LOCK_ACTION` or `UNLOCK_ACTION`. -/
theorem C10_no_callback_with_INVALID_ACTION (cfg : Config) (ops : List Op) (w : World)
    (e : Effect) (he : e ∈ emitted cfg ops w) :
    (∀ fn a actor seen, e = Effect.ActionInitiated_CB fn a actor seen →
      a = LOCK_ACTION ∨ a = UNLOCK_ACTION) ∧
    (∀ fn a seen, e = Effect.ActionCompleted_CB fn a seen →
      a = LOCK_ACTION ∨ a = UNLOCK_ACTION) := by
  obtain ⟨d, hd, hcall⟩ := run_trace cfg ops w
  unfold emitted at he
  rw [hd, List.drop_left] at he
  constructor
  · intro fn a actor seen heq
    exact hcall e he a (by rw [heq]; rfl)
  · intro fn a seen heq
    exact hcall e he a (by rw [heq]; rfl)

/-- Instance of C10: in the sample sequence, which starts with a request for
`INVALID_ACTION`, the completed callback is called with `UNLOCK_ACTION`. -/
theorem C10_no_callback_with_INVALID_ACTION_witness :
    Effect.ActionCompleted_CB 8 UNLOCK_ACTION
        { mState := kState_UnlockingCompleted
          mActionInitiated_CB := some 7, mActionCompleted_CB := some 8 } ∈
      emitted sampleConfig sampleOps (sampleWorld kState_LockingCompleted) ∧
    (UNLOCK_ACTION = LOCK_ACTION ∨ UNLOCK_ACTION = UNLOCK_ACTION) :=
  have hmem : Effect.ActionCompleted_CB 8 UNLOCK_ACTION
        { mState := kState_UnlockingCompleted
          mActionInitiated_CB := some 7, mActionCompleted_CB := some 8 } ∈
      emitted sampleConfig sampleOps (sampleWorld kState_LockingCompleted) := by decide
  ⟨hmem,
   (C10_no_callback_with_INVALID_ACTION sampleConfig sampleOps
      (sampleWorld kState_LockingCompleted) _ hmem).2 8 UNLOCK_ACTION _ rfl⟩

/-! ## Full cycles -/

/-- C11: from `kState_LockingCompleted`, the state `Init` leaves, the sequence unlock request,
expiry, lock request, expiry has both `InitiateAction` calls return true and ends in
`kState_LockingCompleted`; hence after any number `n` of such cycles the state is again
`kState_LockingCompleted`. -/
theorem C11_full_cycle_returns_to_LockingCompleted (cfg : Config) (rtosU : TimerService)
    (actorU : Int) (rtosL : TimerService) (actorL : Int) (w : World)
    (h : w.sContactSensor.mState = kState_LockingCompleted) :
    (InitiateAction cfg rtosU actorU UNLOCK_ACTION w).1 = true ∧
    (InitiateAction cfg rtosL actorL LOCK_ACTION
      (ActuatorMovementTimerEventHandler
        (InitiateAction cfg rtosU actorU UNLOCK_ACTION w).2)).1 = true ∧
    (ActuatorMovementTimerEventHandler
      (InitiateAction cfg rtosL actorL LOCK_ACTION
        (ActuatorMovementTimerEventHandler
          (InitiateAction cfg rtosU actorU UNLOCK_ACTION w).2)).2).sContactSensor.mState
      = kState_LockingCompleted ∧
    ∀ n, (run cfg (fullCycles rtosU actorU rtosL actorL n) w).sContactSensor.mState
      = kState_LockingCompleted := by
  have hmid : (ActuatorMovementTimerEventHandler
      (InitiateAction cfg rtosU actorU UNLOCK_ACTION w).2).sContactSensor.mState
        = kState_UnlockingCompleted := by
    simp [ActuatorMovementTimerEventHandler_sContactSensor, InitiateAction_sContactSensor, h]
  refine ⟨?_, ?_, ?_, ?_⟩
  · rw [InitiateAction_legal cfg rtosU actorU UNLOCK_ACTION w kState_UnlockingInitiated
      (Or.inl ⟨h, rfl, rfl⟩)]
  · rw [InitiateAction_legal cfg rtosL actorL LOCK_ACTION _ kState_LockingInitiated
      (Or.inr ⟨hmid, rfl, rfl⟩)]
  · have hrun := run_fullCycle_mState cfg rtosU actorU rtosL actorL w h
    simpa only [fullCycle, run, List.foldl_cons, List.foldl_nil, step] using hrun
  · intro n
    exact run_fullCycles_mState cfg rtosU actorU rtosL actorL n w h

/-- Instance of C11: three full cycles on the sample world. -/
theorem C11_full_cycle_returns_to_LockingCompleted_witness :
    (sampleWorld kState_LockingCompleted).sContactSensor.mState = kState_LockingCompleted ∧
    (run sampleConfig (fullCycles timerIdle 42 timerIdle (-3) 3)
      (sampleWorld kState_LockingCompleted)).sContactSensor.mState
        = kState_LockingCompleted :=
  ⟨rfl,
   (C11_full_cycle_returns_to_LockingCompleted sampleConfig timerIdle 42 timerIdle (-3)
      (sampleWorld kState_LockingCompleted) rfl).2.2.2 3⟩

/-- C12 as stated fails: on the sample world, whose trace is empty, a full cycle leaves two
calls of the initiated callback and two calls of the completed callback, not zero. -/
theorem C12_counts_not_identical :
    ¬ (countInitiated (run sampleConfig (fullCycle timerIdle 42 timerIdle 42)
          (sampleWorld kState_LockingCompleted)).trace
        = countInitiated (sampleWorld kState_LockingCompleted).trace ∧
       countCompleted (run sampleConfig (fullCycle timerIdle 42 timerIdle 42)
          (sampleWorld kState_LockingCompleted)).trace
        = countCompleted (sampleWorld kState_LockingCompleted).trace) := by
  decide

/-- C12, amended: after a full cycle from `kState_LockingCompleted` with both callbacks
registered the state is `kState_LockingCompleted` again, and the number of calls of the
initiated callback and the number of calls of the completed callback have each grown by
exactly two, so that the two counts differ after the cycle by what they differed before. -/
theorem C12_full_cycle_counts (cfg : Config) (rtosU : TimerService) (actorU : Int)
    (rtosL : TimerService) (actorL : Int) (w : World) (fnI fnC : Nat)
    (h : w.sContactSensor.mState = kState_LockingCompleted)
    (hI : w.sContactSensor.mActionInitiated_CB = some fnI)
    (hC : w.sContactSensor.mActionCompleted_CB = some fnC) :
    (run cfg (fullCycle rtosU actorU rtosL actorL) w).sContactSensor.mState
      = kState_LockingCompleted ∧
    countInitiated (run cfg (fullCycle rtosU actorU rtosL actorL) w).trace
      = countInitiated w.trace + 2 ∧
    countCompleted (run cfg (fullCycle rtosU actorU rtosL actorL) w).trace
      = countCompleted w.trace + 2 := by
  have hcb := run_fullCycle_callbacks cfg rtosU actorU rtosL actorL w fnI fnC h hI hC
  refine ⟨run_fullCycle_mState cfg rtosU actorU rtosL actorL w h, ?_, ?_⟩
  · rw [← countInitiated_callbacks, hcb, ← countInitiated_callbacks w.trace]
    simp [countInitiated, List.countP_append, List.countP_cons]
  · rw [← countCompleted_callbacks, hcb, ← countCompleted_callbacks w.trace]
    simp [countCompleted, List.countP_append, List.countP_cons]

/-- Instance of amended C12: one full cycle on the sample world. -/
theorem C12_full_cycle_counts_witness :
    (sampleWorld kState_LockingCompleted).sContactSensor.mState = kState_LockingCompleted ∧
    (sampleWorld kState_LockingCompleted).sContactSensor.mActionInitiated_CB = some 7 ∧
    (sampleWorld kState_LockingCompleted).sContactSensor.mActionCompleted_CB = some 8 ∧
    countInitiated (run sampleConfig (fullCycle timerIdle 42 timerIdle (-3))
      (sampleWorld kState_LockingCompleted)).trace = 0 + 2 ∧
    countCompleted (run sampleConfig (fullCycle timerIdle 42 timerIdle (-3))
      (sampleWorld kState_LockingCompleted)).trace = 0 + 2 :=
  ⟨rfl, rfl, rfl,
   (C12_full_cycle_counts sampleConfig timerIdle 42 timerIdle (-3)
      (sampleWorld kState_LockingCompleted) 7 8 rfl rfl rfl).2⟩

/-! ## The callback protocol -/

/-- C13: no missed or duplicate completion.  From `kState_LockingCompleted` with both
callbacks registered, for every sequence of `InitiateAction` calls (any actor, any action,
any answers of the timer service) and timer event dispatches, spurious ones included, the
callback calls the sequence makes are the first calls of the repeating pattern
initiated(Unlock), completed(Unlock), initiated(Lock), completed(Lock), ...; every completed
call of an action comes right after an initiated call of the same action; and the number of
completed calls never exceeds the number of initiated calls and is at most one less. -/
theorem C13_callbacks_follow_pattern (cfg : Config) (ops : List Op) (w : World)
    (fnI fnC : Nat)
    (h : w.sContactSensor.mState = kState_LockingCompleted)
    (hI : w.sContactSensor.mActionInitiated_CB = some fnI)
    (hC : w.sContactSensor.mActionCompleted_CB = some fnC) :
    (∃ n, shapes (emitted cfg ops w) = pattern n) ∧
    (∀ pre post a, shapes (emitted cfg ops w) = pre ++ CallShape.completed a :: post →
      ∃ front, pre = front ++ [CallShape.initiated a]) ∧
    countCompleted (emitted cfg ops w) ≤ countInitiated (emitted cfg ops w) ∧
    countInitiated (emitted cfg ops w) ≤ countCompleted (emitted cfg ops w) + 1 := by
  obtain ⟨d, hd, _⟩ := run_trace cfg ops w
  obtain ⟨m, hm⟩ := run_shapes cfg ops fnI fnC w hI hC
  have hem : emitted cfg ops w = d := by
    unfold emitted
    rw [hd, List.drop_left]
  have hpat : shapes (emitted cfg ops w) = patternFrom kState_LockingCompleted m := by
    rw [hd, shapes_append, h] at hm
    rw [hem]
    exact List.append_cancel_left hm
  refine ⟨⟨m, hpat⟩, ?_, ?_⟩
  · intro pre post a hsplit
    rw [hpat] at hsplit
    rcases patternFrom_completed_preceded m _ pre post a hsplit with ⟨_, hslot⟩ | hfront
    · simp [slot] at hslot
    · exact hfront
  · rw [countCompleted_shapes, countInitiated_shapes, hpat]
    exact (patternFrom_counts m kState_LockingCompleted).1 (Or.inl rfl)

/-- Instance of C13: the sample sequence, with its illegal request and its spurious expiry,
makes the first two calls of the pattern. -/
theorem C13_callbacks_follow_pattern_witness :
    (sampleWorld kState_LockingCompleted).sContactSensor.mState = kState_LockingCompleted ∧
    (sampleWorld kState_LockingCompleted).sContactSensor.mActionInitiated_CB = some 7 ∧
    (sampleWorld kState_LockingCompleted).sContactSensor.mActionCompleted_CB = some 8 ∧
    shapes (emitted sampleConfig sampleOps (sampleWorld kState_LockingCompleted)) =
      [CallShape.initiated UNLOCK_ACTION, CallShape.completed UNLOCK_ACTION] ∧
    countCompleted (emitted sampleConfig sampleOps (sampleWorld kState_LockingCompleted))
      ≤ countInitiated (emitted sampleConfig sampleOps (sampleWorld kState_LockingCompleted)) :=
  ⟨rfl, rfl, rfl, by decide,
   (C13_callbacks_follow_pattern sampleConfig sampleOps (sampleWorld kState_LockingCompleted)
      7 8 rfl rfl rfl).2.2.1⟩

/-! ## No cancellation, opaque actor -/

/-- C14: an action in flight cannot be aborted and `InitiateAction` completes none.  The
state after `InitiateAction` is the state before or one of the two `Initiated` states; from
an `Initiated` state it is the state before.  When the state after `InitiateAction` is a
`Completed` state it is the state before, and `SetCallbacks`, `IsActionInProgress`,
`IsUnlocked`, `StartTimer`, `CancelTimer` and `TimerEventHandler` leave the state as it is;
`ActuatorMovementTimerEventHandler` alone takes an `Initiated` state to a `Completed`
one. -/
theorem C14_only_expiry_completes (cfg : Config) (rtos : TimerService) (aActor : Int)
    (aAction : Action_t) (w : World) :
    ((InitiateAction cfg rtos aActor aAction w).2.sContactSensor.mState
        = w.sContactSensor.mState ∨
      (InitiateAction cfg rtos aActor aAction w).2.sContactSensor.mState
        = kState_LockingInitiated ∨
      (InitiateAction cfg rtos aActor aAction w).2.sContactSensor.mState
        = kState_UnlockingInitiated) ∧
    ((w.sContactSensor.mState = kState_LockingInitiated ∨
        w.sContactSensor.mState = kState_UnlockingInitiated) →
      (InitiateAction cfg rtos aActor aAction w).2.sContactSensor.mState
        = w.sContactSensor.mState) ∧
    (((InitiateAction cfg rtos aActor aAction w).2.sContactSensor.mState
          = kState_LockingCompleted ∨
        (InitiateAction cfg rtos aActor aAction w).2.sContactSensor.mState
          = kState_UnlockingCompleted) →
      (InitiateAction cfg rtos aActor aAction w).2.sContactSensor.mState
        = w.sContactSensor.mState) ∧
    (∀ cbI cbC, (SetCallbacks cbI cbC w).sContactSensor.mState = w.sContactSensor.mState) ∧
    (IsActionInProgress w.sContactSensor).2.mState = w.sContactSensor.mState ∧
    (IsUnlocked w.sContactSensor).2.mState = w.sContactSensor.mState ∧
    (∀ ms, (StartTimer cfg rtos ms w).sContactSensor.mState = w.sContactSensor.mState) ∧
    (CancelTimer rtos w).sContactSensor.mState = w.sContactSensor.mState ∧
    (∀ timerID, (TimerEventHandler timerID w).sContactSensor.mState
      = w.sContactSensor.mState) ∧
    (w.sContactSensor.mState = kState_LockingInitiated →
      (ActuatorMovementTimerEventHandler w).sContactSensor.mState
        = kState_LockingCompleted) ∧
    (w.sContactSensor.mState = kState_UnlockingInitiated →
      (ActuatorMovementTimerEventHandler w).sContactSensor.mState
        = kState_UnlockingCompleted) := by
  have hIA := InitiateAction_sContactSensor cfg rtos aActor aAction w
  have hH := ActuatorMovementTimerEventHandler_sContactSensor w
  refine ⟨?_, ?_, ?_, fun _ _ => rfl, rfl, rfl, ?_, ?_, fun _ => rfl, ?_, ?_⟩
  · rw [hIA]
    cases hs : w.sContactSensor.mState <;> cases aAction <;> simp
  · rintro (h | h) <;> rw [hIA] <;> simp [h]
  · rw [hIA]
    cases hs : w.sContactSensor.mState <;> cases aAction <;> simp
  · intro ms
    rw [StartTimer_sContactSensor]
  · rw [CancelTimer_sContactSensor]
  · intro h
    rw [hH]
    simp [h]
  · intro h
    rw [hH]
    simp [h]

/-- Instance of C14: a lock request while unlocking is in flight leaves
`kState_UnlockingInitiated`, and the expiry completes it. -/
theorem C14_only_expiry_completes_witness :
    ((sampleWorld kState_UnlockingInitiated).sContactSensor.mState = kState_LockingInitiated ∨
      (sampleWorld kState_UnlockingInitiated).sContactSensor.mState
        = kState_UnlockingInitiated) ∧
    (InitiateAction sampleConfig timerIdle 42 LOCK_ACTION
      (sampleWorld kState_UnlockingInitiated)).2.sContactSensor.mState
        = kState_UnlockingInitiated ∧
    (ActuatorMovementTimerEventHandler
      (sampleWorld kState_UnlockingInitiated)).sContactSensor.mState
        = kState_UnlockingCompleted :=
  have h := C14_only_expiry_completes sampleConfig timerIdle 42 LOCK_ACTION
    (sampleWorld kState_UnlockingInitiated)
  ⟨Or.inr rfl, h.2.1 (Or.inr rfl), h.2.2.2.2.2.2.2.2.2.2 rfl⟩

/-- C15: the actor is passed through and not interpreted.  For every state, action and two
actors, `InitiateAction` returns the same boolean and leaves the same manager and timer
handle, sends the same commands to the timer, and what it adds to the trace for the second
actor is what it adds for the first with the actor argument of the initiated callback call
replaced; that call, when made, passes exactly the actor given. -/
theorem C15_actor_passed_through (cfg : Config) (rtos : TimerService) (actor1 actor2 : Int)
    (aAction : Action_t) (w : World) :
    (InitiateAction cfg rtos actor1 aAction w).1 = (InitiateAction cfg rtos actor2 aAction w).1 ∧
    (InitiateAction cfg rtos actor1 aAction w).2.sContactSensor
      = (InitiateAction cfg rtos actor2 aAction w).2.sContactSensor ∧
    (InitiateAction cfg rtos actor1 aAction w).2.sContactSensorTimer
      = (InitiateAction cfg rtos actor2 aAction w).2.sContactSensorTimer ∧
    timerCommands (InitiateAction cfg rtos actor1 aAction w).2.trace
      = timerCommands (InitiateAction cfg rtos actor2 aAction w).2.trace ∧
    (InitiateAction cfg rtos actor2 aAction w).2.trace =
      w.trace ++ ((InitiateAction cfg rtos actor1 aAction w).2.trace.drop w.trace.length).map
        (Effect.setActor actor2) ∧
    (∀ fn a actor seen,
      Effect.ActionInitiated_CB fn a actor seen ∈
          (InitiateAction cfg rtos actor1 aAction w).2.trace.drop w.trace.length →
        actor = actor1) := by
  obtain ⟨d, hd, cb, hcb⟩ := InitiateAction_trace_actor cfg rtos aAction w
  have hmap : d.map (Effect.setActor actor2) = d := by
    conv_rhs => rw [← List.map_id d]
    exact List.map_congr_left fun e he => setActor_of_not_callback actor2 e (hd e he)
  refine ⟨?_, ?_, ?_, ?_, ?_, ?_⟩
  · by_cases hlegal :
        (w.sContactSensor.mState = kState_LockingCompleted ∧ aAction = UNLOCK_ACTION) ∨
        (w.sContactSensor.mState = kState_UnlockingCompleted ∧ aAction = LOCK_ACTION)
    · rcases hlegal with ⟨h1, h2⟩ | ⟨h1, h2⟩
      · rw [InitiateAction_legal cfg rtos actor1 aAction w kState_UnlockingInitiated
            (Or.inl ⟨h1, h2, rfl⟩),
          InitiateAction_legal cfg rtos actor2 aAction w kState_UnlockingInitiated
            (Or.inl ⟨h1, h2, rfl⟩)]
      · rw [InitiateAction_legal cfg rtos actor1 aAction w kState_LockingInitiated
            (Or.inr ⟨h1, h2, rfl⟩),
          InitiateAction_legal cfg rtos actor2 aAction w kState_LockingInitiated
            (Or.inr ⟨h1, h2, rfl⟩)]
    · rw [InitiateAction_illegal cfg rtos actor1 aAction w hlegal,
        InitiateAction_illegal cfg rtos actor2 aAction w hlegal]
  · rw [InitiateAction_sContactSensor, InitiateAction_sContactSensor]
  · rw [InitiateAction_sContactSensorTimer, InitiateAction_sContactSensorTimer]
  · rw [hcb actor1, hcb actor2]
    cases cb with
    | none => rfl
    | some p => simp [timerCommands, List.filter_append, Effect.isTimerCommand]
  · simp only [hcb, List.append_assoc, List.drop_left, List.map_append, hmap]
    cases cb with
    | none => rfl
    | some p => simp [Effect.setActor]
  · intro fn a actor seen hmem
    rw [hcb actor1, List.append_assoc, List.drop_left] at hmem
    rcases List.mem_append.1 hmem with hmem | hmem
    · have := hd _ hmem
      simp [Effect.isCallback] at this
    · cases cb with
      | none => simp at hmem
      | some p =>
        simp only [List.mem_singleton, Effect.ActionInitiated_CB.injEq] at hmem
        exact hmem.2.2.1

/-- Instance of C15: actors 42 and -3 on the sample world; the call made for actor 42
passes 42. -/
theorem C15_actor_passed_through_witness :
    Effect.ActionInitiated_CB 7 UNLOCK_ACTION 42
        { mState := kState_UnlockingInitiated
          mActionInitiated_CB := some 7, mActionCompleted_CB := some 8 } ∈
      (InitiateAction sampleConfig timerIdle 42 UNLOCK_ACTION
        (sampleWorld kState_LockingCompleted)).2.trace.drop
          (sampleWorld kState_LockingCompleted).trace.length ∧
    (42 : Int) = 42 :=
  have hmem : Effect.ActionInitiated_CB 7 UNLOCK_ACTION 42
        { mState := kState_UnlockingInitiated
          mActionInitiated_CB := some 7, mActionCompleted_CB := some 8 } ∈
      (InitiateAction sampleConfig timerIdle 42 UNLOCK_ACTION
        (sampleWorld kState_LockingCompleted)).2.trace.drop
          (sampleWorld kState_LockingCompleted).trace.length := by decide
  ⟨hmem,
   (C15_actor_passed_through sampleConfig timerIdle 42 (-3) UNLOCK_ACTION
      (sampleWorld kState_LockingCompleted)).2.2.2.2.2 7 UNLOCK_ACTION 42 _ hmem⟩

/-! ## Init and the timer glue -/

/-- C16: when `xTimerCreate` returns a handle, `Init` returns 0 and leaves the manager in
`kState_LockingCompleted` whatever the state before, so that right after `Init` both
`IsActionInProgress()` and `IsUnlocked()` return false; when `xTimerCreate` returns `NULL`,
`Init` reaches `assert(0)` and does not return. -/
theorem C16_Init (this : Nat) (w : World) :
    (∀ handle : Nat, ∃ w1 : World,
      Init this (some handle) w = InitResult.returned 0 w1 ∧
      w1.sContactSensor.mState = kState_LockingCompleted ∧
      w1.sContactSensorTimer = some handle ∧
      (IsActionInProgress w1.sContactSensor).1 = false ∧
      (IsUnlocked w1.sContactSensor).1 = false) ∧
    (∃ w1 : World, Init this none w = InitResult.assert_failed w1) := by
  constructor
  · intro handle
    exact ⟨_, rfl, rfl, rfl, rfl, rfl⟩
  · exact ⟨_, rfl⟩

/-- C17: `StartTimer(ms)` sends `xTimerStop` exactly when the timer is active at entry, and
then in every case, whatever `xTimerStop` answered, exactly one `xTimerChangePeriod` with
period `ms / portTICK_PERIOD_MS` and a wait of 100 ticks.  A failing `xTimerChangePeriod`
does not reach the caller: the manager and the timer handle are as before, and the world
differs from that of a successful call by one log line only.  `ms` is a `uint32_t` and the
tick period is not 0, the division being undefined otherwise. -/
theorem C17_StartTimer_commands (cfg : Config) (rtos : TimerService) (ms : Nat) (w : World)
    (hms : ms < 2 ^ 32) (_htick : 0 < cfg.portTICK_PERIOD_MS) :
    timerCommands ((StartTimer cfg rtos ms w).trace.drop w.trace.length) =
      (if rtos.xTimerIsTimerActive then [Effect.xTimerStop w.sContactSensorTimer 0] else []) ++
        [Effect.xTimerChangePeriod w.sContactSensorTimer (ms / cfg.portTICK_PERIOD_MS) 100] ∧
    (StartTimer cfg rtos ms w).sContactSensor = w.sContactSensor ∧
    (StartTimer cfg rtos ms w).sContactSensorTimer = w.sContactSensorTimer ∧
    StartTimer cfg { rtos with xTimerChangePeriod := BaseType_t.pdFAIL } ms w =
      (StartTimer cfg { rtos with xTimerChangePeriod := BaseType_t.pdPASS } ms w).emit
        (Effect.K32W_LOG LogLine.timer_start_failed) := by
  refine ⟨?_, StartTimer_sContactSensor cfg rtos ms w,
    StartTimer_sContactSensorTimer cfg rtos ms w, ?_⟩
  · have hmod : ms % 2 ^ 32 = ms := Nat.mod_eq_of_lt hms
    unfold StartTimer CancelTimer
    rw [hmod]
    cases rtos.xTimerIsTimerActive <;> cases rtos.xTimerChangePeriod <;>
      cases rtos.xTimerStop <;>
      simp [World.emit, timerCommands, Effect.isTimerCommand, List.filter_cons]
  · unfold StartTimer CancelTimer
    simp

/-- Instance of C17: 2000 ms at 5 ms per tick with an active timer whose stop fails. -/
theorem C17_StartTimer_commands_witness :
    (2000 < 2 ^ 32 ∧ 0 < sampleConfig.portTICK_PERIOD_MS) ∧
    timerCommands ((StartTimer sampleConfig
        { xTimerIsTimerActive := true
          xTimerStop := BaseType_t.pdFAIL
          xTimerChangePeriod := BaseType_t.pdFAIL } 2000
        (sampleWorld kState_LockingCompleted)).trace.drop
          (sampleWorld kState_LockingCompleted).trace.length) =
      [Effect.xTimerStop (some 1) 0, Effect.xTimerChangePeriod (some 1) 400 100] :=
  ⟨⟨by decide, by decide⟩,
   (C17_StartTimer_commands sampleConfig
      { xTimerIsTimerActive := true
        xTimerStop := BaseType_t.pdFAIL
        xTimerChangePeriod := BaseType_t.pdFAIL } 2000
      (sampleWorld kState_LockingCompleted) (by decide) (by decide)).1⟩

/-- C18: `TimerEventHandler` mutates no state.  In every state it leaves the manager (state
and callbacks) and the timer handle as they are, calls no user callback, and posts exactly
one event, of type `kEventType_Timer`, with handler `ActuatorMovementTimerEventHandler` and
with the id of the timer as context; the state changes only when
`ActuatorMovementTimerEventHandler` then runs. -/
theorem C18_TimerEventHandler_posts_event (timerID : Nat) (w : World) :
    (TimerEventHandler timerID w).sContactSensor = w.sContactSensor ∧
    (TimerEventHandler timerID w).sContactSensorTimer = w.sContactSensorTimer ∧
    (TimerEventHandler timerID w).trace = w.trace ++
      [Effect.PostEvent
        { Type_ := AppEventTypes.kEventType_Timer
          Context := timerID
          Handler := EventHandler_t.ActuatorMovementTimerEventHandler }] ∧
    callbacks (TimerEventHandler timerID w).trace = callbacks w.trace ∧
    ((w.sContactSensor.mState = kState_LockingInitiated ∨
        w.sContactSensor.mState = kState_UnlockingInitiated) →
      (ActuatorMovementTimerEventHandler (TimerEventHandler timerID w)).sContactSensor.mState
        ≠ w.sContactSensor.mState) := by
  refine ⟨rfl, rfl, rfl, ?_, ?_⟩
  · simp [TimerEventHandler, World.emit, callbacks, Effect.isCallback]
  · intro h
    rw [ActuatorMovementTimerEventHandler_sContactSensor]
    have hm : (TimerEventHandler timerID w).sContactSensor = w.sContactSensor := rfl
    rw [hm]
    rcases h with h | h <;> simp [h]

/-- Instance of C18: the expiry of the timer in state `kState_UnlockingInitiated`. -/
theorem C18_TimerEventHandler_posts_event_witness :
    ((sampleWorld kState_UnlockingInitiated).sContactSensor.mState = kState_LockingInitiated ∨
      (sampleWorld kState_UnlockingInitiated).sContactSensor.mState
        = kState_UnlockingInitiated) ∧
    (TimerEventHandler 5 (sampleWorld kState_UnlockingInitiated)).sContactSensor.mState
      = kState_UnlockingInitiated ∧
    (ActuatorMovementTimerEventHandler
      (TimerEventHandler 5 (sampleWorld kState_UnlockingInitiated))).sContactSensor.mState
        ≠ (sampleWorld kState_UnlockingInitiated).sContactSensor.mState :=
  ⟨Or.inr rfl, rfl,
   (C18_TimerEventHandler_posts_event 5 (sampleWorld kState_UnlockingInitiated)).2.2.2.2
      (Or.inr rfl)⟩

/-! ## The timer and the state machine -/

/-- C19: with a well-behaved timer (created inactive, `xTimerChangePeriod` always accepted
and starting it, inactive once expired, each expiry dispatched to
`ActuatorMovementTimerEventHandler` before the next request), in every state reached from
`Init` by `InitiateAction` calls and expiries the timer is active exactly when
`IsActionInProgress()` returns true.  Hence no `InitiateAction` in such a state takes the
branch of `StartTimer` for a timer already started: it neither logs "lock timer already
started!" nor sends `xTimerStop`. -/
theorem C19_timer_active_iff_in_progress (cfg : Config) (this handle : Nat) (w0 : World)
    (s0 : TimedWorld) (ops : List TimedOp)
    (h0 : TimedWorld.afterInit this (some handle) w0 = some s0) :
    ((TimedWorld.run cfg ops s0).timerActive = true ↔
      (IsActionInProgress (TimedWorld.run cfg ops s0).world.sContactSensor).1 = true) ∧
    ∀ aActor aAction,
      Effect.K32W_LOG LogLine.timer_already_started ∉
        ((TimedWorld.run cfg ops s0).InitiateAction cfg aActor aAction).2.world.trace.drop
          (TimedWorld.run cfg ops s0).world.trace.length ∧
      ∀ xTimer wait, Effect.xTimerStop xTimer wait ∉
        ((TimedWorld.run cfg ops s0).InitiateAction cfg aActor aAction).2.world.trace.drop
          (TimedWorld.run cfg ops s0).world.trace.length := by
  have hinit : s0.timerActive = (IsActionInProgress s0.world.sContactSensor).1 := by
    have hret : Init this (some handle) w0 = InitResult.returned 0
        ({ (w0.emit (Effect.xTimerCreate 1 false this)) with
            sContactSensorTimer := some handle }.set_mState kState_LockingCompleted) := rfl
    rw [TimedWorld.afterInit, hret] at h0
    simp only [Option.some.injEq] at h0
    subst h0
    rfl
  have hinv := TimedWorld.run_inv cfg ops s0 hinit
  refine ⟨by rw [hinv], fun aActor aAction => ⟨?_, ?_⟩⟩
  · intro hmem
    rcases (TimedWorld.InitiateAction_inv cfg aActor aAction _ hinv).2 _ hmem with
      ⟨_, _, _, he⟩ | he
    · exact absurd he (by simp)
    · simp [Effect.isCallback] at he
  · intro xTimer wait hmem
    rcases (TimedWorld.InitiateAction_inv cfg aActor aAction _ hinv).2 _ hmem with
      ⟨_, _, _, he⟩ | he
    · exact absurd he (by simp)
    · simp [Effect.isCallback] at he

/-- Instance of C19: after the sample sequence, which ends with a lock request, the timer
is active and `IsActionInProgress()` returns true. -/
theorem C19_timer_active_iff_in_progress_witness :
    TimedWorld.afterInit 5 (some 1) (sampleWorld kState_UnlockingInitiated)
      = some sampleTimedWorld ∧
    (TimedWorld.run sampleConfig sampleTimedOps sampleTimedWorld).timerActive = true ∧
    (IsActionInProgress
      (TimedWorld.run sampleConfig sampleTimedOps sampleTimedWorld).world.sContactSensor).1
        = true :=
  have h0 : TimedWorld.afterInit 5 (some 1) (sampleWorld kState_UnlockingInitiated)
      = some sampleTimedWorld := by decide
  ⟨h0, by decide,
   (C19_timer_active_iff_in_progress sampleConfig 5 1
      (sampleWorld kState_UnlockingInitiated) sampleTimedWorld sampleTimedOps h0).1.1
        (by decide)⟩

end ContactSensor
